import Mathlib

set_option linter.unusedVariables false

/-
Verification of the KMSAN runtime core (mm/kmsan/core.c, mm/kmsan/shadow.c,
mm/kmsan/hooks.c) against its natural-language specification.

The development is a shallow embedding: shadow and origin metadata stores are
byte/word maps, the stack-depot collaborator (declared in
include/linux/stackdepot.h, implementation external to the repository) is
modelled as a content-addressed list of entry vectors with the extra bits
embedded in the low bits of the returned handle, and the architecture helpers
(virt_to_page, pfn_valid, zone boundary constants) are parameters of a
metadata environment record.  Machine integers are Nat with explicit
truncation (% 2^32 / % 2^64) where the C code relies on fixed width.
-/

/-! ## Constants (values from the source and its headers) -/

def PAGE_SIZE : Nat := 4096

def KMSAN_ORIGIN_SIZE : Nat := 4

def MAX_CHAIN_DEPTH : Nat := 7

def STACK_DEPOT_EXTRA_BITS : Nat := 5

/-- Modelled from the spec: magic chain marker placed in the first slot of a
chained provenance record (internal header `kmsan.h` is not in the tree;
the concrete value is semantically irrelevant, only its presence matters). -/
def KMSAN_CHAIN_MAGIC_ORIGIN : Nat := 0x4332423041413710

/-- Modelled from the spec: poison-flag bits of the internal header.
`KMSAN_POISON_CHECK` asserts the region must be tracked,
`KMSAN_POISON_FREE` marks a use-after-free origin. -/
def KMSAN_POISON_NOCHECK : Nat := 0

def KMSAN_POISON_CHECK : Nat := 1

def KMSAN_POISON_FREE : Nat := 2

def GFP_KERNEL : Nat := 0

def GFP_ATOMIC : Nat := 1

def U32 : Nat := 2 ^ 32

def U64 : Nat := 2 ^ 64

/-! ## Small arithmetic helpers mirroring the kernel macros -/

/-- ALIGN_DOWN(x, k) for k dividing into x by truncation. -/
def alignDown (x k : Nat) : Nat := x - x % k

/-- ALIGN(x, k): round up to a multiple of k. -/
def alignUp (x k : Nat) : Nat := ((x + k - 1) / k) * k

/-- u64 subtraction with wraparound, for the carry tricks in
kmsan_virt_addr_valid and the pointer comparisons in
kmsan_metadata_is_contiguous. -/
def u64sub (a b : Nat) : Nat := (a % U64 + U64 - b % U64) % U64

/-! ## Byte / word stores -/

/-- memset over a metadata byte store: fill n bytes starting at start with b
(byte-truncated, as the C int-to-byte conversion does). -/
def writeBytes (m : Nat → Nat) (start n b : Nat) : Nat → Nat :=
  fun a => if start ≤ a ∧ a < start + n then b % 256 else m a

/-- The loop `for (i = 0; i < slots; i++) origin_start[i] = origin;` as a
store update: every 4-aligned slot key in the covered range receives the
handle. -/
def writeOriginSlots (m : Nat → Nat) (start slots handle : Nat) : Nat → Nat :=
  fun a =>
    if start ≤ a ∧ a < start + 4 * slots ∧ (a - start) % 4 = 0 then handle
    else m a

/-- Single origin-word write (`origin_dst[i] = ...`). -/
def writeWord (m : Nat → Nat) (a v : Nat) : Nat → Nat :=
  fun b => if b = a then v else m b

/-- __memmove over the shadow byte store (overlap-correct: every destination
byte receives the pre-move source byte). -/
def memmoveBytes (m : Nat → Nat) (dst src n : Nat) : Nat → Nat :=
  fun a => if dst ≤ a ∧ a < dst + n then m (src + (a - dst)) else m a

/-- Little-endian u32 read of four shadow bytes
(`align_shadow_src[i]` in kmsan_memmove_metadata). -/
def readWord (m : Nat → Nat) (a : Nat) : Nat :=
  m a % 256 + 256 * (m (a + 1) % 256) + 65536 * (m (a + 2) % 256) +
    16777216 * (m (a + 3) % 256)

/-! ## The stack depot collaborator -/

/-- Modelled from the spec: the content-addressed stack-trace store
(include/linux/stackdepot.h declares it; the implementation is an external
collaborator).  `pools` holds the interned entry vectors; a handle is
32 * (index + 1) + extraBits, so the 5 spare extra bits live in the low bits
of the handle and handle 0 means "no record" (invariant I4).  `full` models
allocation failure of the store: saving unseen content fails with handle 0. -/
structure StackDepot where
  pools : List (List Nat)
  full : Bool
deriving DecidableEq

def depotIndexOf : List (List Nat) → List Nat → Option Nat
  | [], _ => none
  | e :: rest, tgt =>
    if e = tgt then some 0 else (depotIndexOf rest tgt).map (· + 1)

/-- Modelled from the spec: `save(trace, extraBits) -> handle`, deduplicating
and content-addressed; identical content yields identical handles. -/
def stack_depot_save_extra (d : StackDepot) (entries : List Nat)
    (extra : Nat) : Nat × StackDepot :=
  match depotIndexOf d.pools entries with
  | some i => (32 * (i + 1) + extra % 32, d)
  | none =>
    if d.full then (0, d)
    else (32 * (d.pools.length + 1) + extra % 32,
          ⟨d.pools ++ [entries], d.full⟩)

/-- Modelled from the spec: the spare bits ride in the handle itself and are
recovered without a lookup. -/
def stack_depot_get_extra_bits (h : Nat) : Nat := h % 32

/-- Modelled from the spec: encode (chain depth, use-after-free flag) into the
spare handle bits (internal header helper; depth in the high bits, UAF flag in
bit 0, per the BUILD_BUG_ON in kmsan_internal_chain_origin). -/
def kmsan_extra_bits (depth : Nat) (uaf : Bool) : Nat :=
  2 * depth + (if uaf then 1 else 0)

def kmsan_depth_from_eb (eb : Nat) : Nat := eb / 2

def kmsan_uaf_from_eb (eb : Nat) : Bool := eb % 2 = 1

/-! ## The metadata environment (zones, page tables, arch helpers) -/

/-- Address-space environment of the resolver: zone boundaries, the per-page
metadata side table (page->kmsan_shadow / page->kmsan_origin), the dummy
fallback pages and the architecture helpers that are external to the
analyzed files (virt_to_page, pfn_valid, compound pages). -/
structure MetaEnv where
  vmallocStart : Nat
  vmallocEnd : Nat
  modulesStart : Nat
  modulesEnd : Nat
  vmallocShadowBase : Nat
  vmallocOriginBase : Nat
  modulesShadowBase : Nat
  modulesOriginBase : Nat
  ceaBase : Nat
  ceaMapSize : Nat
  ceaAreaBase : Nat
  ceaSize : Nat
  ceaShadowBase : Nat
  ceaOriginBase : Nat
  startKernelMap : Nat
  physBase : Nat
  pageOffset : Nat
  kernelImageSize : Nat
  physBits : Nat
  pfnValid : Nat → Bool
  virtToPage : Nat → Nat
  pageShadow : Nat → Option Nat
  pageOrigin : Nat → Option Nat
  dummyLoad : Nat
  dummyStore : Nat
  headPageAddr : Nat → Nat
  compoundOrder : Nat → Nat

def kmsan_internal_is_vmalloc_addr (env : MetaEnv) (a : Nat) : Bool :=
  if env.vmallocStart ≤ a ∧ a < env.vmallocEnd then true else false

def kmsan_internal_is_module_addr (env : MetaEnv) (a : Nat) : Bool :=
  if env.modulesStart ≤ a ∧ a < env.modulesEnd then true else false

/-- kmsan_phys_addr_valid (shadow.c): address fits in the CPU physical bits. -/
def kmsan_phys_addr_valid (env : MetaEnv) (addr : Nat) : Bool :=
  if addr / 2 ^ env.physBits = 0 then true else false

/-- kmsan_virt_addr_valid (shadow.c), with the u64 carry tricks explicit. -/
def kmsan_virt_addr_valid (env : MetaEnv) (addr : Nat) : Bool :=
  let x := addr % U64
  let y := u64sub x env.startKernelMap
  if x > y then
    if y ≥ env.kernelImageSize then false
    else
      let x2 := (y + env.physBase) % U64
      env.pfnValid (x2 / PAGE_SIZE)
  else
    let x2 := (y + u64sub env.startKernelMap env.pageOffset) % U64
    if x2 > y ∨ ¬ kmsan_phys_addr_valid env x2 then false
    else env.pfnValid (x2 / PAGE_SIZE)

def virt_to_page_or_null (env : MetaEnv) (vaddr : Nat) : Option Nat :=
  if kmsan_virt_addr_valid env vaddr then some (env.virtToPage vaddr)
  else none

def page_has_metadata (env : MetaEnv) (page : Nat) : Bool :=
  (env.pageShadow page).isSome && (env.pageOrigin page).isSome

/-- vmalloc_meta (shadow.c): fixed linear offset mapping into the reserved
shadow/origin virtual ranges.  The caller guarantees origin addresses are
granule-aligned. -/
def vmalloc_meta (env : MetaEnv) (addr : Nat) (is_origin : Bool) : Nat :=
  if kmsan_internal_is_vmalloc_addr env addr then
    (addr - env.vmallocStart) +
      (if is_origin then env.vmallocOriginBase else env.vmallocShadowBase)
  else if kmsan_internal_is_module_addr env addr then
    (addr - env.modulesStart) +
      (if is_origin then env.modulesOriginBase else env.modulesShadowBase)
  else 0

/-- get_cea_meta_or_null (shadow.c): per-execution-unit scratch zone lookup. -/
def get_cea_meta_or_null (env : MetaEnv) (addr : Nat)
    (is_origin : Bool) : Option Nat :=
  if addr < env.ceaBase ∨ addr ≥ env.ceaBase + env.ceaMapSize then none
  else if addr < env.ceaAreaBase then none
  else
    let off := addr - env.ceaAreaBase
    if off ≥ env.ceaSize then none
    else some ((if is_origin then env.ceaOriginBase else env.ceaShadowBase)
               + off)

/-- kmsan_get_metadata (shadow.c): resolve a data address to its shadow or
origin storage address, or none.  Origin queries are granule-aligned first. -/
def kmsan_get_metadata (env : MetaEnv) (address : Nat)
    (is_origin : Bool) : Option Nat :=
  let addr :=
    if is_origin ∧ address % KMSAN_ORIGIN_SIZE ≠ 0 then
      address - address % KMSAN_ORIGIN_SIZE
    else address
  if kmsan_internal_is_vmalloc_addr env addr ∨
     kmsan_internal_is_module_addr env addr then
    some (vmalloc_meta env addr is_origin)
  else
    match get_cea_meta_or_null env addr is_origin with
    | some r => some r
    | none =>
      match virt_to_page_or_null env addr with
      | none => none
      | some page =>
        if ¬ page_has_metadata env page then none
        else
          some ((if is_origin then (env.pageOrigin page).getD 0
                 else (env.pageShadow page).getD 0) + addr % PAGE_SIZE)

/-- (u64) cast of a possibly NULL metadata pointer. -/
def ptrVal (p : Option Nat) : Nat := p.getD 0

/-- The per-page step of kmsan_metadata_is_contiguous: walks successive page
starts comparing metadata pointers shifted by one page (u64 arithmetic). -/
def contigGo (env : MetaEnv) (all_untracked : Bool) :
    Nat → Nat → Option Nat → Option Nat → Bool
  | 0, _, _, _ => true
  | cnt + 1, next_addr, cur_shadow, cur_origin =>
    let next_shadow := kmsan_get_metadata env next_addr false
    let next_origin := kmsan_get_metadata env next_addr true
    if all_untracked then
      if next_shadow.isSome ∨ next_origin.isSome then false
      else contigGo env all_untracked cnt (next_addr + PAGE_SIZE)
             next_shadow next_origin
    else
      if ptrVal cur_shadow % U64 = u64sub (ptrVal next_shadow) PAGE_SIZE ∧
         ptrVal cur_origin % U64 = u64sub (ptrVal next_origin) PAGE_SIZE then
        contigGo env all_untracked cnt (next_addr + PAGE_SIZE)
          next_shadow next_origin
      else false

/-- kmsan_metadata_is_contiguous (core.c). -/
def kmsan_metadata_is_contiguous (env : MetaEnv) (addr size : Nat) : Bool :=
  if size = 0 then true
  else if alignDown (addr + size - 1) PAGE_SIZE = alignDown addr PAGE_SIZE then
    true
  else
    let cur_shadow := kmsan_get_metadata env addr false
    let all_untracked := cur_shadow.isNone
    let cur_origin := kmsan_get_metadata env addr true
    if all_untracked ∧ cur_origin.isSome then false
    else
      contigGo env all_untracked ((size - 1) / PAGE_SIZE) (addr + PAGE_SIZE)
        cur_shadow cur_origin

/-! ## The runtime state -/

/-- Global runtime state: readiness flag, current context's re-entrancy
counter, the shadow byte store and origin word store (addressed by metadata
address), the depot, the stack that stack_trace_save/filter_irq_stacks would
capture in the current context, and the saturating skipped-origins counter. -/
structure KmsanState where
  env : MetaEnv
  ready : Bool
  inRuntime : Nat
  shadowMem : Nat → Nat
  originMem : Nat → Nat
  depot : StackDepot
  currentStack : List Nat
  skippedOrigins : Nat

def kmsan_enter_runtime (st : KmsanState) : KmsanState :=
  { st with inRuntime := st.inRuntime + 1 }

def kmsan_leave_runtime (st : KmsanState) : KmsanState :=
  { st with inRuntime := st.inRuntime - 1 }

/-- kmsan_save_stack_with_flags (core.c): capture the (already filtered)
current stack and intern it in the depot with the reserved extra bits.
The gfp flags only lose __GFP_DIRECT_RECLAIM in C and do not influence the
resulting handle in the model. -/
def kmsan_save_stack_with_flags (st : KmsanState) (flags reserved : Nat) :
    Nat × KmsanState :=
  let p := stack_depot_save_extra st.depot st.currentStack reserved
  (p.1, { st with depot := p.2 })

/-- kmsan_internal_chain_origin (core.c). -/
def kmsan_internal_chain_origin (st : KmsanState) (id : Nat) :
    Nat × KmsanState :=
  if id = 0 then (id, st)
  else
    let extra := stack_depot_get_extra_bits id
    let depth := kmsan_depth_from_eb extra
    let uaf := kmsan_uaf_from_eb extra
    if depth ≥ MAX_CHAIN_DEPTH then
      (id, { st with skippedOrigins := st.skippedOrigins + 1 })
    else
      let extra2 := kmsan_extra_bits (depth + 1) uaf
      let p := kmsan_save_stack_with_flags st GFP_ATOMIC extra2
      let entries := [KMSAN_CHAIN_MAGIC_ORIGIN, p.1, id]
      let q := stack_depot_save_extra p.2.depot entries extra2
      (q.1, { p.2 with depot := q.2 })

/-- kmsan_internal_set_shadow_origin (core.c): fill `size` shadow bytes with
`b` and every covered origin granule (padded down/up to granule boundaries)
with `origin`.  BUG()/fatal paths return none. -/
def kmsan_internal_set_shadow_origin (st : KmsanState) (addr size b origin : Nat)
    (checked : Bool) : Option KmsanState :=
  if ¬ kmsan_metadata_is_contiguous st.env addr size then none
  else
    match kmsan_get_metadata st.env addr false with
    | none => if checked then none else some st
    | some shadow_start =>
      let st2 := { st with shadowMem := writeBytes st.shadowMem shadow_start size b }
      let pr :=
        if addr % KMSAN_ORIGIN_SIZE ≠ 0 then
          (addr - addr % KMSAN_ORIGIN_SIZE, size + addr % KMSAN_ORIGIN_SIZE)
        else (addr, size)
      let size2 := alignUp pr.2 KMSAN_ORIGIN_SIZE
      match kmsan_get_metadata st2.env pr.1 true with
      | none => none
      | some origin_start =>
        let om := writeOriginSlots st2.originMem origin_start
          (size2 / KMSAN_ORIGIN_SIZE) origin
        some { st2 with originMem := om }

/-- kmsan_internal_poison_memory (core.c): b = -1 fills shadow bytes with
0xff. -/
def kmsan_internal_poison_memory (st : KmsanState) (addr size flags
    poison_flags : Nat) : Option KmsanState :=
  let extra := kmsan_extra_bits 0 (poison_flags &&& KMSAN_POISON_FREE ≠ 0)
  let checked := poison_flags &&& KMSAN_POISON_CHECK ≠ 0
  let p := kmsan_save_stack_with_flags st flags extra
  kmsan_internal_set_shadow_origin p.2 addr size 255 p.1 checked

def kmsan_internal_unpoison_memory (st : KmsanState) (addr size : Nat)
    (checked : Bool) : Option KmsanState :=
  kmsan_internal_set_shadow_origin st addr size 0 0 checked

/-! ## The metadata propagation engine -/

/-- One slot step of the origin loop in kmsan_memmove_metadata.  The
accumulator carries (old_origin, new_origin, state); `i` is the slot index
chosen by the move direction.  The two mask steps reproduce the source's
shifts exactly (i == 0 masks with `(shadow << skip) >> skip`, the last slot
with `(shadow >> skip) << skip`). -/
def kmsan_memmove_origin_step (src n src_slots align_shadow_src origin_src
    origin_dst : Nat) (i : Nat) (acc : Nat × Nat × KmsanState) :
    Nat × Nat × KmsanState :=
  let old_origin := acc.1
  let new_origin := acc.2.1
  let st := acc.2.2
  let w0 := readWord st.shadowMem (align_shadow_src + 4 * i)
  let w1 :=
    if i = 0 then
      ((w0 <<< (src % KMSAN_ORIGIN_SIZE * 8)) % U32) >>>
        (src % KMSAN_ORIGIN_SIZE * 8)
    else w0
  let w2 :=
    if i = src_slots - 1 then
      (w1 >>> ((src + n) % KMSAN_ORIGIN_SIZE * 8)) <<<
        ((src + n) % KMSAN_ORIGIN_SIZE * 8)
    else w1
  let osrc := st.originMem (origin_src + 4 * i)
  let t :=
    if osrc ≠ 0 ∧ osrc ≠ old_origin ∧ w2 ≠ 0 then
      let p := kmsan_internal_chain_origin st osrc
      (osrc, if p.1 ≠ 0 then p.1 else osrc, p.2)
    else (old_origin, new_origin, st)
  let st3 :=
    if w2 ≠ 0 then
      { t.2.2 with originMem := writeWord t.2.2.originMem (origin_dst + 4 * i) t.2.1 }
    else
      { t.2.2 with originMem := writeWord t.2.2.originMem (origin_dst + 4 * i) 0 }
  (t.1, t.2.1, st3)

/-- kmsan_memmove_metadata (core.c). -/
def kmsan_memmove_metadata (st : KmsanState) (dst src n : Nat) :
    Option KmsanState :=
  match kmsan_get_metadata st.env dst false with
  | none => some st
  | some shadow_dst =>
    if ¬ kmsan_metadata_is_contiguous st.env dst n then none
    else
      match kmsan_get_metadata st.env src false with
      | none =>
        some { st with shadowMem := writeBytes st.shadowMem shadow_dst n 0 }
      | some shadow_src =>
        if ¬ kmsan_metadata_is_contiguous st.env src n then none
        else
          let st2 := { st with shadowMem :=
                        memmoveBytes st.shadowMem shadow_dst shadow_src n }
          match kmsan_get_metadata st2.env dst true,
                kmsan_get_metadata st2.env src true with
          | some origin_dst, some origin_src =>
            let src_slots := (alignUp (src + n) KMSAN_ORIGIN_SIZE -
                              alignDown src KMSAN_ORIGIN_SIZE) /
                             KMSAN_ORIGIN_SIZE
            let dst_slots := (alignUp (dst + n) KMSAN_ORIGIN_SIZE -
                              alignDown dst KMSAN_ORIGIN_SIZE) /
                             KMSAN_ORIGIN_SIZE
            if src_slots = 0 ∨ dst_slots = 0 then none
            else if src_slots < 1 ∨ dst_slots < 1 then none
            else if (src_slots : Int) - (dst_slots : Int) > 1 ∨
                    (dst_slots : Int) - (src_slots : Int) < -1 then none
            else
              let backwards := dst > src
              let mn := min src_slots dst_slots
              let align_shadow_src := alignDown shadow_src KMSAN_ORIGIN_SIZE
              let fin := (List.range mn).foldl
                (fun acc step =>
                  kmsan_memmove_origin_step src n src_slots align_shadow_src
                    origin_src origin_dst
                    (if backwards then mn - 1 - step else step) acc)
                (0, 0, st2)
              some fin.2.2
          | _, _ => none

/-! ## The poison scanner / reporter -/

/-- A report event emitted by kmsan_internal_check_memory.  Offsets are ints
because the C code tracks cur_off_start as a signed sentinel. -/
structure KmsanReport where
  origin : Nat
  addr : Nat
  size : Nat
  offStart : Int
  offEnd : Int
  userAddr : Nat
  reason : Nat
deriving DecidableEq, Repr

/-- The per-byte loop of one page chunk in kmsan_internal_check_memory.
`cnt` is how many bytes of the chunk remain, `i` the index of the next byte
within the chunk; the state carries (cur_origin, cur_off_start, reports).
A shadow byte with no origin metadata is a fatal BUG (none). -/
def checkChunkGo (env : MetaEnv) (sh om : Nat → Nat) (addr size userAddr
    reason pos shadowBase : Nat) :
    Nat → Nat → Nat × Int × List KmsanReport →
    Option (Nat × Int × List KmsanReport)
  | 0, _, s => some s
  | cnt + 1, i, (curO, curOff, acc) =>
    if sh (shadowBase + i) % 256 = 0 then
      let acc2 :=
        if curO ≠ 0 then
          acc ++ [⟨curO, addr, size, curOff, (pos + i : Nat) - 1, userAddr,
                   reason⟩]
        else acc
      checkChunkGo env sh om addr size userAddr reason pos shadowBase cnt
        (i + 1) (0, -1, acc2)
    else
      match kmsan_get_metadata env (addr + pos + i) true with
      | none => none
      | some op =>
        let newO := om op
        if curO ≠ newO then
          let acc2 :=
            if curO ≠ 0 then
              acc ++ [⟨curO, addr, size, curOff, (pos + i : Nat) - 1,
                       userAddr, reason⟩]
            else acc
          checkChunkGo env sh om addr size userAddr reason pos shadowBase cnt
            (i + 1) (newO, (pos + i : Nat), acc2)
        else
          checkChunkGo env sh om addr size userAddr reason pos shadowBase cnt
            (i + 1) (curO, curOff, acc)

/-- The chunked while-loop of kmsan_internal_check_memory.  Each chunk stops
at the next page boundary; a page without shadow closes any open run.  The
fuel is an upper bound on the number of chunks (each chunk advances pos by at
least one byte), so fuel = size + 1 never runs out. -/
def checkGo (env : MetaEnv) (sh om : Nat → Nat) (addr size userAddr
    reason : Nat) : Nat → Nat → Nat × Int × List KmsanReport →
    Option (List KmsanReport)
  | 0, _, _ => none
  | fuel + 1, pos, (curO, curOff, acc) =>
    if pos < size then
      let chunk := min (size - pos) (PAGE_SIZE - (addr + pos) % PAGE_SIZE)
      match kmsan_get_metadata env (addr + pos) false with
      | none =>
        let acc2 :=
          if curO ≠ 0 then
            acc ++ [⟨curO, addr, size, curOff, (pos : Nat) - 1, userAddr,
                     reason⟩]
          else acc
        checkGo env sh om addr size userAddr reason fuel (pos + chunk)
          (0, -1, acc2)
      | some shadowBase =>
        match checkChunkGo env sh om addr size userAddr reason pos shadowBase
                chunk 0 (curO, curOff, acc) with
        | none => none
        | some s =>
          checkGo env sh om addr size userAddr reason fuel (pos + chunk) s
    else
      some (if curO ≠ 0 then
              acc ++ [⟨curO, addr, size, curOff, (pos : Nat) - 1, userAddr,
                       reason⟩]
            else acc)

/-- kmsan_internal_check_memory (core.c): pure observation, returns the list
of emitted report events (none on the fatal BUG paths). -/
def kmsan_internal_check_memory (st : KmsanState) (addr size userAddr
    reason : Nat) : Option (List KmsanReport) :=
  if size = 0 then some []
  else if ¬ kmsan_metadata_is_contiguous st.env addr size then none
  else
    checkGo st.env st.shadowMem st.originMem addr size userAddr reason
      (size + 1) 0 (0, -1, [])

/-! ## The shadow/origin access layer -/

structure ShadowOriginPtr where
  shadow : Nat
  origin : Nat
deriving DecidableEq, Repr

/-- The return_dummy label of kmsan_get_shadow_origin_ptr: loads read the
shared all-zero page, stores are absorbed by the scratch page. -/
def dummyFor (st : KmsanState) (store : Bool) : ShadowOriginPtr :=
  if store then ⟨st.env.dummyStore, st.env.dummyStore⟩
  else ⟨st.env.dummyLoad, st.env.dummyLoad⟩

/-- kmsan_get_shadow_origin_ptr (shadow.c).  BUG paths return none. -/
def kmsan_get_shadow_origin_ptr (st : KmsanState) (address size : Nat)
    (store : Bool) : Option ShadowOriginPtr :=
  if size > PAGE_SIZE then none
  else if st.ready = false ∨ 0 < st.inRuntime then some (dummyFor st store)
  else if ¬ kmsan_metadata_is_contiguous st.env address size then none
  else
    match kmsan_get_metadata st.env address false with
    | none => some (dummyFor st store)
    | some shadow =>
      some ⟨shadow, ptrVal (kmsan_get_metadata st.env address true)⟩

/-! ## Allocation / free hooks -/

/-- The fields of struct kmem_cache that kmsan_slab_alloc/free consult:
the object size, the SLAB_TYPESAFE_BY_RCU and SLAB_POISON flag bits and
whether a constructor is present. -/
structure KmemCache where
  object_size : Nat
  typesafe_by_rcu : Bool
  slab_poison : Bool
  has_ctor : Bool

/-- kmsan_slab_free (hooks.c). -/
def kmsan_slab_free (st : KmsanState) (s : KmemCache) (object : Nat) :
    Option KmsanState :=
  if st.ready = false ∨ 0 < st.inRuntime then some st
  else if s.typesafe_by_rcu ∨ s.slab_poison then some st
  else if s.has_ctor then some st
  else
    (kmsan_internal_poison_memory (kmsan_enter_runtime st) object
        s.object_size GFP_KERNEL
        (KMSAN_POISON_CHECK ||| KMSAN_POISON_FREE)).map kmsan_leave_runtime

/-- kmsan_kfree_large (hooks.c): poison the whole compound page.  The
BUG_ON(ptr != page_address(page)) is the none path. -/
def kmsan_kfree_large (st : KmsanState) (ptr : Nat) : Option KmsanState :=
  if st.ready = false ∨ 0 < st.inRuntime then some st
  else
    let st2 := kmsan_enter_runtime st
    if ptr ≠ st2.env.headPageAddr ptr then none
    else
      (kmsan_internal_poison_memory st2 ptr
          (PAGE_SIZE * 2 ^ st2.env.compoundOrder ptr) GFP_KERNEL
          (KMSAN_POISON_CHECK ||| KMSAN_POISON_FREE)).map kmsan_leave_runtime

/-- kmsan_free_page (shadow.c): an explicit no-op in the source
("really nothing to do here. Could rewrite shadow instead."). -/
def kmsan_free_page (st : KmsanState) (page order : Nat) : KmsanState := st

/-! ## A concrete environment for witnesses and counterexamples

One tracked linear-zone data page at 2^40 (the direct-map base), shadow page
at 2^50, origin page at 2^51; the vmalloc / module / cpu-entry-area zones are
empty; addresses at 2^41 resolve to an invalid pfn and are untracked. -/

def DATA : Nat := 2 ^ 40

def SB : Nat := 2 ^ 50

def OB : Nat := 2 ^ 51

def SRC_UNTRACKED : Nat := 2 ^ 41

def simpleEnv : MetaEnv where
  vmallocStart := 0
  vmallocEnd := 0
  modulesStart := 0
  modulesEnd := 0
  vmallocShadowBase := 0
  vmallocOriginBase := 0
  modulesShadowBase := 0
  modulesOriginBase := 0
  ceaBase := 0
  ceaMapSize := 0
  ceaAreaBase := 0
  ceaSize := 0
  ceaShadowBase := 0
  ceaOriginBase := 0
  startKernelMap := 2 ^ 45
  physBase := 0
  pageOffset := 2 ^ 40
  kernelImageSize := 2 ^ 30
  physBits := 46
  pfnValid := fun pfn => pfn < 2 ^ 20
  virtToPage := fun a => u64sub a (2 ^ 40) / PAGE_SIZE
  pageShadow := fun p => if p = 0 then some SB else none
  pageOrigin := fun p => if p = 0 then some OB else none
  dummyLoad := 2 ^ 52
  dummyStore := 2 ^ 52 + PAGE_SIZE
  headPageAddr := fun a => alignDown a PAGE_SIZE
  compoundOrder := fun _ => 0

/-- Baseline state: ready, not re-entrant, all metadata clean, empty depot. -/
def stS : KmsanState where
  env := simpleEnv
  ready := true
  inRuntime := 0
  shadowMem := fun _ => 0
  originMem := fun _ => 0
  depot := ⟨[], false⟩
  currentStack := [101, 102]
  skippedOrigins := 0

/-- The origin handle governing a data address, as the scanner reads it:
resolve the origin granule and read the handle (0 when unresolvable). -/
def kmsan_origin_at (env : MetaEnv) (om : Nat → Nat) (a : Nat) : Nat :=
  match kmsan_get_metadata env a true with
  | some p => om p
  | none => 0

/-- Iterate the chain manager n times starting from a handle, threading the
state (used for the saturation property). -/
def chainTimes (st : KmsanState) (h : Nat) : Nat → Nat × KmsanState
  | 0 => (h, st)
  | n + 1 =>
    let p := chainTimes st h n
    kmsan_internal_chain_origin p.2 p.1

/-- State holding one interned depth-0 record; its handle is 32. -/
def chainStart : KmsanState := { stS with depot := ⟨[[999]], false⟩ }

/-- Baseline state with the readiness flag still off. -/
def stNotReady : KmsanState := { stS with ready := false }

/-- State for the masking bug: the two bytes just past a 2-byte copy source
are poisoned (byte offsets 18,19 of the tracked page) with origin handle 77 on
their granule; everything in the copy ranges is clean. -/
def stC4 : KmsanState :=
  { stS with
    shadowMem := fun a => if a = SB + 18 ∨ a = SB + 19 then 255 else 0
    originMem := fun a => if a = OB + 16 then 77 else 0 }

def c4result : Option (Nat × Nat × Nat × Nat × Nat) :=
  (kmsan_memmove_metadata stC4 DATA (DATA + 16) 2).map
    (fun s => (s.originMem OB, s.shadowMem SB, s.shadowMem (SB + 1),
               s.shadowMem (SB + 2), s.shadowMem (SB + 3)))

/-- State for the chain-failure fallback: source granule (page offset 16)
poisoned with origin 77, the depot empty and full, so chaining fails. -/
def stC10 : KmsanState :=
  { stS with
    depot := ⟨[], true⟩
    shadowMem := fun a => if a = SB + 16 then 255 else 0
    originMem := fun a => if a = OB + 16 then 77 else 0 }

/-- Fully poisoned tracked page (shadow 0xff everywhere, origins clean). -/
def stAllPoisoned : KmsanState := { stS with shadowMem := fun _ => 255 }

/-- The end-to-end scenario of the spec: poison 8 bytes, unpoison offsets
2..4, scan the whole range. -/
def scenarioC1 : Option (List KmsanReport) := do
  let st1 ← kmsan_internal_poison_memory stS DATA 8 0 0
  let st2 ← kmsan_internal_unpoison_memory st1 (DATA + 2) 3 false
  kmsan_internal_check_memory st2 DATA 8 0 0

/-- A plain slab cache: no constructor, no RCU typesafety, no poisoning. -/
def cachePlain : KmemCache := ⟨64, false, false, false⟩

/-- An RCU-typesafe slab cache. -/
def cacheRcu : KmemCache := ⟨64, true, false, false⟩

/-! ## Store and arithmetic lemmas -/

theorem writeBytes_in (m : Nat → Nat) (start n b a : Nat) (h1 : start ≤ a)
    (h2 : a < start + n) : writeBytes m start n b a = b % 256 := by
  simp [writeBytes, h1, h2]

theorem writeBytes_out (m : Nat → Nat) (start n b a : Nat)
    (h : a < start ∨ start + n ≤ a) : writeBytes m start n b a = m a := by
  unfold writeBytes
  rw [if_neg]
  omega

theorem writeOriginSlots_in (m : Nat → Nat) (start slots h k : Nat)
    (hk : k < slots) : writeOriginSlots m start slots h (start + 4 * k) = h := by
  unfold writeOriginSlots
  rw [if_pos]
  refine ⟨by omega, by omega, by omega⟩

theorem writeWord_at (m : Nat → Nat) (a v : Nat) : writeWord m a v a = v := by
  simp [writeWord]

theorem memmoveBytes_out (m : Nat → Nat) (dst src n a : Nat)
    (h : a < dst ∨ dst + n ≤ a) : memmoveBytes m dst src n a = m a := by
  unfold memmoveBytes
  rw [if_neg]
  omega

theorem readWord_congr (m1 m2 : Nat → Nat) (a : Nat)
    (h : ∀ k, k < 4 → m1 (a + k) = m2 (a + k)) :
    readWord m1 a = readWord m2 a := by
  have h0 := h 0 (by omega)
  have h1 := h 1 (by omega)
  have h2 := h 2 (by omega)
  have h3 := h 3 (by omega)
  simp only [Nat.add_zero] at h0
  unfold readWord
  rw [h0, h1, h2, h3]

theorem readWord_lt (m : Nat → Nat) (a : Nat) : readWord m a < U32 := by
  unfold readWord U32
  have b0 : m a % 256 < 256 := Nat.mod_lt _ (by omega)
  have b1 : m (a + 1) % 256 < 256 := Nat.mod_lt _ (by omega)
  have b2 : m (a + 2) % 256 < 256 := Nat.mod_lt _ (by omega)
  have b3 : m (a + 3) % 256 < 256 := Nat.mod_lt _ (by omega)
  omega

/-! ## Depot lemmas -/

theorem stack_depot_save_extra_spec (d : StackDepot) (entries : List Nat)
    (extra : Nat) (hf : d.full = false) :
    ∃ k, 1 ≤ k ∧
      (stack_depot_save_extra d entries extra).1 = 32 * k + extra % 32 := by
  unfold stack_depot_save_extra
  cases hidx : depotIndexOf d.pools entries with
  | some i => exact ⟨i + 1, by omega, rfl⟩
  | none =>
    rw [hf]
    exact ⟨d.pools.length + 1, by omega, rfl⟩

theorem stack_depot_save_extra_ne_zero (d : StackDepot) (entries : List Nat)
    (extra : Nat) (hf : d.full = false) :
    (stack_depot_save_extra d entries extra).1 ≠ 0 := by
  obtain ⟨k, hk, he⟩ := stack_depot_save_extra_spec d entries extra hf
  omega

/-! ## Contiguity lemmas -/

theorem contiguous_single_page (env : MetaEnv) (addr size : Nat)
    (h : addr % PAGE_SIZE + size ≤ PAGE_SIZE) :
    kmsan_metadata_is_contiguous env addr size = true := by
  unfold kmsan_metadata_is_contiguous
  rcases Nat.eq_zero_or_pos size with hz | hp
  · simp [hz]
  · have heq : alignDown (addr + size - 1) PAGE_SIZE =
        alignDown addr PAGE_SIZE := by
      unfold alignDown PAGE_SIZE at *
      omega
    rw [if_neg (by omega), if_pos heq]

theorem contiguous_of_le_page (env : MetaEnv) (addr size : Nat)
    (hs : size ≤ PAGE_SIZE)
    (himp : kmsan_get_metadata env addr false = none →
            kmsan_get_metadata env addr true = none) :
    kmsan_metadata_is_contiguous env addr size = true := by
  unfold kmsan_metadata_is_contiguous
  by_cases hz : size = 0
  · simp [hz]
  · rw [if_neg hz]
    by_cases hone : alignDown (addr + size - 1) PAGE_SIZE =
        alignDown addr PAGE_SIZE
    · rw [if_pos hone]
    · rw [if_neg hone]
      have hN : (size - 1) / PAGE_SIZE = 0 := by
        unfold PAGE_SIZE at *
        omega
      cases hsh : kmsan_get_metadata env addr false with
      | some v => simp [hsh, hN, contigGo]
      | none => simp [hsh, himp hsh, hN, contigGo]

/-! ## Resolver lemmas -/

theorem kmsan_get_metadata_origin_align (env : MetaEnv) (x : Nat) :
    kmsan_get_metadata env (x - x % KMSAN_ORIGIN_SIZE) true =
      kmsan_get_metadata env x true := by
  by_cases hx : x % KMSAN_ORIGIN_SIZE = 0
  · rw [hx, Nat.sub_zero]
  · have h4 : (x - x % KMSAN_ORIGIN_SIZE) % KMSAN_ORIGIN_SIZE = 0 := by
      unfold KMSAN_ORIGIN_SIZE at *
      omega
    unfold kmsan_get_metadata
    simp [h4, hx]

/-- Behaviour of the store primitive on a resolvable range: the shadow bytes
are filled and the granule-aligned super-range of origin slots is filled. -/
theorem set_shadow_origin_spec (st : KmsanState) (addr size b origin : Nat)
    (checked : Bool) (sBase oBase : Nat)
    (hcont : kmsan_metadata_is_contiguous st.env addr size = true)
    (hsh : kmsan_get_metadata st.env addr false = some sBase)
    (hor : kmsan_get_metadata st.env addr true = some oBase) :
    kmsan_internal_set_shadow_origin st addr size b origin checked =
      some { st with
        shadowMem := writeBytes st.shadowMem sBase size b
        originMem := writeOriginSlots st.originMem oBase
          (alignUp (size + addr % KMSAN_ORIGIN_SIZE) KMSAN_ORIGIN_SIZE /
            KMSAN_ORIGIN_SIZE) origin } := by
  unfold kmsan_internal_set_shadow_origin
  rw [hcont, hsh]
  by_cases hx : addr % KMSAN_ORIGIN_SIZE = 0
  · have halign : kmsan_get_metadata st.env addr true = some oBase := hor
    simp only [hx, ne_eq, not_true_eq_false, not_false_eq_true, if_neg,
      if_false, ite_false, halign]
    simp
  · have halign : kmsan_get_metadata st.env (addr - addr % KMSAN_ORIGIN_SIZE)
        true = some oBase := by
      rw [kmsan_get_metadata_origin_align st.env addr]
      exact hor
    simp only [hx, ne_eq, not_false_eq_true, if_pos, ite_true, halign]
    simp

/-! ## Chain manager lemmas -/

theorem extra_bits_roundtrip (dep : Nat) (u : Bool) (hdep : dep ≤ 7) :
    kmsan_extra_bits dep u % 32 = kmsan_extra_bits dep u ∧
    kmsan_depth_from_eb (kmsan_extra_bits dep u) = dep ∧
    kmsan_uaf_from_eb (kmsan_extra_bits dep u) = u := by
  unfold kmsan_extra_bits kmsan_depth_from_eb kmsan_uaf_from_eb
  cases u <;> simp <;> omega

theorem kmsan_internal_chain_origin_fails (st : KmsanState) (id : Nat)
    (h0 : id ≠ 0)
    (hd : kmsan_depth_from_eb (stack_depot_get_extra_bits id) < MAX_CHAIN_DEPTH)
    (hp : st.depot.pools = []) (hf : st.depot.full = true) :
    (kmsan_internal_chain_origin st id).1 = 0 := by
  unfold kmsan_internal_chain_origin
  rw [if_neg h0]
  simp only []
  rw [if_neg (Nat.not_le.mpr hd)]
  unfold kmsan_save_stack_with_flags stack_depot_save_extra
  rw [hp]
  simp [depotIndexOf, hf, hp]

theorem kmsan_internal_chain_origin_succ (st : KmsanState) (id : Nat)
    (h0 : id ≠ 0)
    (hd : kmsan_depth_from_eb (stack_depot_get_extra_bits id) < MAX_CHAIN_DEPTH)
    (hf : st.depot.full = false) :
    (kmsan_internal_chain_origin st id).1 ≠ 0 ∧
    kmsan_depth_from_eb (stack_depot_get_extra_bits
        (kmsan_internal_chain_origin st id).1) =
      kmsan_depth_from_eb (stack_depot_get_extra_bits id) + 1 ∧
    kmsan_uaf_from_eb (stack_depot_get_extra_bits
        (kmsan_internal_chain_origin st id).1) =
      kmsan_uaf_from_eb (stack_depot_get_extra_bits id) := by
  unfold kmsan_internal_chain_origin
  rw [if_neg h0]
  simp only []
  rw [if_neg (Nat.not_le.mpr hd)]
  have hf2 : ∀ flags extra,
      ((kmsan_save_stack_with_flags st flags extra).2).depot.full = false := by
    intro flags extra
    unfold kmsan_save_stack_with_flags stack_depot_save_extra
    cases hidx : depotIndexOf st.depot.pools st.currentStack <;>
      simp [hidx, hf]
  set e2 := kmsan_extra_bits
    (kmsan_depth_from_eb (stack_depot_get_extra_bits id) + 1)
    (kmsan_uaf_from_eb (stack_depot_get_extra_bits id)) with he2
  set p := kmsan_save_stack_with_flags st GFP_ATOMIC e2 with hpp
  obtain ⟨k, hk, he⟩ := stack_depot_save_extra_spec p.2.depot
    [KMSAN_CHAIN_MAGIC_ORIGIN, p.1, id] e2 (by rw [hpp]; exact hf2 _ _)
  rw [he]
  have hrt := extra_bits_roundtrip
    (kmsan_depth_from_eb (stack_depot_get_extra_bits id) + 1)
    (kmsan_uaf_from_eb (stack_depot_get_extra_bits id)) (by
      have hm : MAX_CHAIN_DEPTH = 7 := rfl
      omega)
  rw [← he2] at hrt
  have hgb : stack_depot_get_extra_bits (32 * k + e2 % 32) = e2 := by
    unfold stack_depot_get_extra_bits
    have h1 := hrt.1
    omega
  refine ⟨by omega, ?_, ?_⟩
  · rw [hgb, he2, hrt.2.1]
  · rw [hgb, he2, hrt.2.2]

/-! ## Scanner loop lemmas -/

theorem checkChunkGo_origin_nonzero (env : MetaEnv) (sh om : Nat → Nat)
    (addr size u r pos sB0 : Nat) :
    ∀ cnt i curO curOff acc out,
      checkChunkGo env sh om addr size u r pos sB0 cnt i (curO, curOff, acc) =
        some out →
      (∀ rep ∈ acc, rep.origin ≠ 0) →
      ∀ rep ∈ out.2.2, rep.origin ≠ 0 := by
  intro cnt
  induction cnt with
  | zero =>
    intro i curO curOff acc out h hacc
    simp only [checkChunkGo, Option.some.injEq] at h
    rw [← h]
    exact hacc
  | succ n ih =>
    intro i curO curOff acc out h hacc
    simp only [checkChunkGo] at h
    have hacc2 : ∀ rep ∈ (if curO ≠ 0 then
        acc ++ [(⟨curO, addr, size, curOff, (pos + i : Nat) - 1, u, r⟩ :
          KmsanReport)] else acc), rep.origin ≠ 0 := by
      intro rep hrep
      by_cases hc : curO ≠ 0
      · rw [if_pos hc] at hrep
        rcases List.mem_append.mp hrep with hmem | hmem
        · exact hacc rep hmem
        · have : rep = ⟨curO, addr, size, curOff, (pos + i : Nat) - 1, u, r⟩ :=
            List.mem_singleton.mp hmem
          rw [this]
          exact hc
      · rw [if_neg hc] at hrep
        exact hacc rep hrep
    by_cases hs : sh (sB0 + i) % 256 = 0
    · rw [if_pos hs] at h
      exact ih (i + 1) 0 (-1) _ out h hacc2
    · rw [if_neg hs] at h
      cases hmd : kmsan_get_metadata env (addr + pos + i) true with
      | none =>
        rw [hmd] at h
        cases h
      | some op =>
        rw [hmd] at h
        simp only [] at h
        by_cases hq : curO ≠ om op
        · rw [if_pos hq] at h
          exact ih (i + 1) (om op) ((pos + i : Nat)) _ out h hacc2
        · rw [if_neg hq] at h
          exact ih (i + 1) curO curOff acc out h hacc

theorem checkGo_origin_nonzero (env : MetaEnv) (sh om : Nat → Nat)
    (addr size u r : Nat) :
    ∀ fuel pos curO curOff acc out,
      checkGo env sh om addr size u r fuel pos (curO, curOff, acc) = some out →
      (∀ rep ∈ acc, rep.origin ≠ 0) →
      ∀ rep ∈ out, rep.origin ≠ 0 := by
  intro fuel
  induction fuel with
  | zero =>
    intro pos curO curOff acc out h hacc
    cases h
  | succ n ih =>
    intro pos curO curOff acc out h hacc
    simp only [checkGo] at h
    have hacc2 : ∀ rep ∈ (if curO ≠ 0 then
        acc ++ [(⟨curO, addr, size, curOff, (pos : Nat) - 1, u, r⟩ :
          KmsanReport)] else acc), rep.origin ≠ 0 := by
      intro rep hrep
      by_cases hc : curO ≠ 0
      · rw [if_pos hc] at hrep
        rcases List.mem_append.mp hrep with hmem | hmem
        · exact hacc rep hmem
        · have : rep = ⟨curO, addr, size, curOff, (pos : Nat) - 1, u, r⟩ :=
            List.mem_singleton.mp hmem
          rw [this]
          exact hc
      · rw [if_neg hc] at hrep
        exact hacc rep hrep
    by_cases hlt : pos < size
    · rw [if_pos hlt] at h
      cases hmd : kmsan_get_metadata env (addr + pos) false with
      | none =>
        rw [hmd] at h
        simp only [] at h
        exact ih _ 0 (-1) _ out h hacc2
      | some sB0 =>
        rw [hmd] at h
        simp only [] at h
        cases hc : checkChunkGo env sh om addr size u r pos sB0
            (min (size - pos) (PAGE_SIZE - (addr + pos) % PAGE_SIZE)) 0
            (curO, curOff, acc) with
        | none =>
          rw [hc] at h
          cases h
        | some s =>
          rw [hc] at h
          have hmid : ∀ rep ∈ s.2.2, rep.origin ≠ 0 :=
            checkChunkGo_origin_nonzero env sh om addr size u r pos sB0 _ 0
              curO curOff acc s hc hacc
          have hs3 : s = (s.1, s.2.1, s.2.2) := rfl
          rw [hs3] at h
          exact ih _ s.1 s.2.1 s.2.2 out h hmid
    · rw [if_neg hlt] at h
      simp only [Option.some.injEq] at h
      rw [← h]
      exact hacc2

theorem checkChunkGo_zeroOrigins (env : MetaEnv) (sh om : Nat → Nat)
    (addr size u r pos sB0 : Nat) :
    ∀ cnt i curOff acc out,
      (∀ j, j < cnt → kmsan_origin_at env om (addr + pos + (i + j)) = 0) →
      checkChunkGo env sh om addr size u r pos sB0 cnt i (0, curOff, acc) =
        some out →
      out.1 = 0 ∧ out.2.2 = acc := by
  have hno : ¬ ((0 : Nat) ≠ 0) := fun hq => hq rfl
  intro cnt
  induction cnt with
  | zero =>
    intro i curOff acc out hz h
    simp only [checkChunkGo, Option.some.injEq] at h
    rw [← h]
    exact ⟨rfl, rfl⟩
  | succ n ih =>
    intro i curOff acc out hz h
    simp only [checkChunkGo] at h
    by_cases hs : sh (sB0 + i) % 256 = 0
    · rw [if_pos hs, if_neg hno] at h
      exact ih (i + 1) (-1) acc out
        (fun j hj => by
          have := hz (j + 1) (by omega)
          rwa [show i + (j + 1) = i + 1 + j by omega] at this) h
    · rw [if_neg hs] at h
      cases hmd : kmsan_get_metadata env (addr + pos + i) true with
      | none =>
        rw [hmd] at h
        cases h
      | some op =>
        rw [hmd] at h
        simp only [] at h
        have hop : om op = 0 := by
          have h0 := hz 0 (by omega)
          rw [Nat.add_zero] at h0
          unfold kmsan_origin_at at h0
          rw [hmd] at h0
          exact h0
        rw [hop, if_neg hno] at h
        exact ih (i + 1) curOff acc out
          (fun j hj => by
            have := hz (j + 1) (by omega)
            rwa [show i + (j + 1) = i + 1 + j by omega] at this) h

theorem checkGo_zeroOrigins (env : MetaEnv) (sh om : Nat → Nat)
    (addr size u r : Nat) :
    ∀ fuel pos curOff acc out,
      (∀ k, k < size → kmsan_origin_at env om (addr + k) = 0) →
      checkGo env sh om addr size u r fuel pos (0, curOff, acc) = some out →
      out = acc := by
  have hno : ¬ ((0 : Nat) ≠ 0) := fun hq => hq rfl
  intro fuel
  induction fuel with
  | zero =>
    intro pos curOff acc out hz h
    cases h
  | succ n ih =>
    intro pos curOff acc out hz h
    simp only [checkGo] at h
    by_cases hlt : pos < size
    · rw [if_pos hlt] at h
      cases hmd : kmsan_get_metadata env (addr + pos) false with
      | none =>
        rw [hmd] at h
        simp only [] at h
        rw [if_neg hno] at h
        exact ih _ (-1) acc out hz h
      | some sB0 =>
        rw [hmd] at h
        simp only [] at h
        cases hc : checkChunkGo env sh om addr size u r pos sB0
            (min (size - pos) (PAGE_SIZE - (addr + pos) % PAGE_SIZE)) 0
            (0, curOff, acc) with
        | none =>
          rw [hc] at h
          cases h
        | some s =>
          rw [hc] at h
          have hchunkle : min (size - pos) (PAGE_SIZE - (addr + pos) % PAGE_SIZE)
              ≤ size - pos := Nat.min_le_left _ _
          have hmid := checkChunkGo_zeroOrigins env sh om addr size u r pos sB0
            _ 0 curOff acc s
            (fun j hj => by
              have := hz (pos + j) (by omega)
              rwa [show addr + (pos + j) = addr + pos + (0 + j) by omega]
                at this) hc
          have hs3 : s = (s.1, s.2.1, s.2.2) := rfl
          rw [hs3, hmid.1, hmid.2] at h
          exact ih _ s.2.1 acc out hz h
    · rw [if_neg hlt, if_neg hno] at h
      simp only [Option.some.injEq] at h
      rw [← h]

theorem checkChunkGo_const (env : MetaEnv) (sh om : Nat → Nat)
    (addr size u r pos sB0 : Nat) :
    ∀ cnt i curO curOff acc,
      curO ≠ 0 →
      (∀ j, j < cnt → sh (sB0 + (i + j)) % 256 ≠ 0) →
      (∀ j, j < cnt → ∃ p, kmsan_get_metadata env (addr + pos + (i + j)) true =
        some p ∧ om p = curO) →
      checkChunkGo env sh om addr size u r pos sB0 cnt i (curO, curOff, acc) =
        some (curO, curOff, acc) := by
  intro cnt
  induction cnt with
  | zero =>
    intro i curO curOff acc hO hsh hor
    simp only [checkChunkGo]
  | succ n ih =>
    intro i curO curOff acc hO hsh hor
    have hs0 : ¬ sh (sB0 + i) % 256 = 0 := by
      have := hsh 0 (by omega)
      rwa [Nat.add_zero] at this
    obtain ⟨p, hp, hpv⟩ := hor 0 (by omega)
    rw [Nat.add_zero] at hp
    simp only [checkChunkGo]
    rw [if_neg hs0, hp]
    simp only []
    rw [hpv, if_neg (fun hq => hq rfl)]
    exact ih (i + 1) curO curOff acc hO
      (fun j hj => by
        have := hsh (j + 1) (by omega)
        rwa [show i + (j + 1) = i + 1 + j by omega] at this)
      (fun j hj => by
        have := hor (j + 1) (by omega)
        rwa [show i + (j + 1) = i + 1 + j by omega] at this)

theorem checkChunkGo_noreport (env : MetaEnv) (sh om : Nat → Nat)
    (addr size u r pos sB0 : Nat) :
    ∀ cnt i curOff acc,
      (∀ j, j < cnt → sh (sB0 + (i + j)) % 256 = 0 ∨
        (∃ p, kmsan_get_metadata env (addr + pos + (i + j)) true = some p ∧
          om p = 0)) →
      ∃ off2, checkChunkGo env sh om addr size u r pos sB0 cnt i
        (0, curOff, acc) = some (0, off2, acc) := by
  have hno : ¬ ((0 : Nat) ≠ 0) := fun hq => hq rfl
  intro cnt
  induction cnt with
  | zero =>
    intro i curOff acc hz
    exact ⟨curOff, by simp only [checkChunkGo]⟩
  | succ n ih =>
    intro i curOff acc hz
    have hznext : ∀ j, j < n → sh (sB0 + (i + 1 + j)) % 256 = 0 ∨
        (∃ p, kmsan_get_metadata env (addr + pos + (i + 1 + j)) true = some p ∧
          om p = 0) := by
      intro j hj
      have := hz (j + 1) (by omega)
      rwa [show i + (j + 1) = i + 1 + j by omega] at this
    by_cases hs : sh (sB0 + i) % 256 = 0
    · obtain ⟨off2, hrec⟩ := ih (i + 1) (-1) acc hznext
      refine ⟨off2, ?_⟩
      simp only [checkChunkGo]
      rw [if_pos hs, if_neg hno]
      exact hrec
    · have hz0 := hz 0 (by omega)
      rw [Nat.add_zero] at hz0
      rcases hz0 with hshadow | ⟨p, hp, hpv⟩
      · exact absurd hshadow hs
      · obtain ⟨off2, hrec⟩ := ih (i + 1) curOff acc hznext
        refine ⟨off2, ?_⟩
        simp only [checkChunkGo]
        rw [if_neg hs, hp]
        simp only []
        rw [hpv, if_neg hno]
        exact hrec


/-- Claim C9 (confirmed): every report event emitted by
kmsan_internal_check_memory carries a nonzero origin handle, and a range
whose origin granules all hold handle 0 yields no reports at all (a poisoned
byte with zero origin never opens a reported run, it only closes one). -/
theorem C9_reports_nonzero_origin :
    (∀ (st : KmsanState) (addr size u r : Nat) (res : List KmsanReport),
      kmsan_internal_check_memory st addr size u r = some res →
      ∀ rep ∈ res, rep.origin ≠ 0) ∧
    (∀ (st : KmsanState) (addr size u r : Nat),
      (∀ k, k < size → kmsan_origin_at st.env st.originMem (addr + k) = 0) →
      kmsan_internal_check_memory st addr size u r = none ∨
      kmsan_internal_check_memory st addr size u r = some []) := by
  constructor
  · intro st addr size u r res h
    unfold kmsan_internal_check_memory at h
    by_cases hz : size = 0
    · rw [if_pos hz] at h
      simp only [Option.some.injEq] at h
      rw [← h]
      intro rep hrep
      cases hrep
    · rw [if_neg hz] at h
      cases hcont : kmsan_metadata_is_contiguous st.env addr size with
      | false =>
        rw [if_pos (by simp [hcont])] at h
        cases h
      | true =>
        rw [if_neg (by simp [hcont])] at h
        exact checkGo_origin_nonzero st.env st.shadowMem st.originMem addr
          size u r _ 0 0 (-1) [] res h (by intro rep hrep; cases hrep)
  · intro st addr size u r hz
    unfold kmsan_internal_check_memory
    by_cases hs : size = 0
    · right
      rw [if_pos hs]
    · rw [if_neg hs]
      cases hcont : kmsan_metadata_is_contiguous st.env addr size with
      | false =>
        left
        rw [if_pos (by simp [hcont])]
      | true =>
        rw [if_neg (by simp [hcont])]
        cases hres : checkGo st.env st.shadowMem st.originMem addr size u r
            (size + 1) 0 (0, -1, []) with
        | none => left; rfl
        | some out =>
          right
          rw [checkGo_zeroOrigins st.env st.shadowMem st.originMem addr size
            u r (size + 1) 0 (-1) [] out hz hres]


/-- Witness for claim C9: both parts applied to a fully poisoned tracked
page whose origin store is all zero; the scan emits nothing. -/
theorem C9_witness :
    (kmsan_internal_check_memory stAllPoisoned DATA 8 0 0 = none ∨
     kmsan_internal_check_memory stAllPoisoned DATA 8 0 0 = some []) ∧
    (∀ rep ∈ ([] : List KmsanReport), rep.origin ≠ 0) :=
  ⟨C9_reports_nonzero_origin.2 stAllPoisoned DATA 8 0 0 (by decide),
   C9_reports_nonzero_origin.1 stAllPoisoned DATA 8 0 0 [] (by decide)⟩


/-- Claim C2 counterexample: with the readiness flag off (and no
re-entrancy), kmsan_get_metadata still resolves a tracked address to its
shadow location instead of returning none; the shadow.c comment above the
function even demands that its result not depend on the runtime state.  The
readiness / re-entrancy gating lives in kmsan_get_shadow_origin_ptr. -/
theorem C2_counterexample :
    stNotReady.ready = false ∧ stNotReady.inRuntime = 0 ∧
    kmsan_get_metadata stNotReady.env DATA false = some SB := by
  refine ⟨rfl, rfl, by decide⟩


/-- Claim C2 (amended): the resolver is a pure function of the zone
environment and the address, unaffected by the readiness flag and the
re-entrancy counter; the no-op behaviour for not-ready or re-entrant callers
is provided by the access layer, which returns the dummy pages. -/
theorem C2_amended_resolver :
    (∀ (st : KmsanState) (b : Bool) (nr addr : Nat) (k : Bool),
      kmsan_get_metadata ({ st with ready := b, inRuntime := nr }).env addr k =
        kmsan_get_metadata st.env addr k) ∧
    (∀ (st : KmsanState) (addr sz : Nat) (store : Bool),
      sz ≤ PAGE_SIZE → (st.ready = false ∨ 0 < st.inRuntime) →
      kmsan_get_shadow_origin_ptr st addr sz store =
        some (dummyFor st store)) := by
  constructor
  · intro st b nr addr k
    rfl
  · intro st addr sz store hsz hgate
    unfold kmsan_get_shadow_origin_ptr
    rw [if_neg (by omega), if_pos hgate]


/-- Witness for claim C2 (amended), applied at the not-ready baseline
state and a tracked address. -/
theorem C2_amended_witness :
    kmsan_get_shadow_origin_ptr stNotReady DATA 8 false =
      some (dummyFor stNotReady false) ∧
    kmsan_get_metadata
        ({ stNotReady with ready := true, inRuntime := 5 }).env DATA false =
      kmsan_get_metadata stNotReady.env DATA false :=
  ⟨C2_amended_resolver.2 stNotReady DATA 8 false (by decide) (Or.inl rfl),
   C2_amended_resolver.1 stNotReady true 5 DATA false⟩


/-- Claim C3 (confirmed): chain(0) = 0; a handle whose decoded depth has
reached MAX_CHAIN_DEPTH is returned unchanged (only the saturation counter
moves); otherwise, when the depot can save, the result is a nonzero handle
with decoded depth one larger and the use-after-free bit preserved; and
iterating chain MAX_CHAIN_DEPTH + 1 times from a fresh depth-0 handle gives
decoded depth MAX_CHAIN_DEPTH, after which chaining returns the identical
handle.  The operation is total: it never fails its caller. -/
theorem C3_chain_depth :
    (∀ st : KmsanState, (kmsan_internal_chain_origin st 0).1 = 0) ∧
    (∀ (st : KmsanState) (id : Nat), id ≠ 0 →
      MAX_CHAIN_DEPTH ≤ kmsan_depth_from_eb (stack_depot_get_extra_bits id) →
      (kmsan_internal_chain_origin st id).1 = id) ∧
    (∀ (st : KmsanState) (id : Nat), id ≠ 0 →
      kmsan_depth_from_eb (stack_depot_get_extra_bits id) < MAX_CHAIN_DEPTH →
      st.depot.full = false →
      (kmsan_internal_chain_origin st id).1 ≠ 0 ∧
      kmsan_depth_from_eb (stack_depot_get_extra_bits
          (kmsan_internal_chain_origin st id).1) =
        kmsan_depth_from_eb (stack_depot_get_extra_bits id) + 1 ∧
      kmsan_uaf_from_eb (stack_depot_get_extra_bits
          (kmsan_internal_chain_origin st id).1) =
        kmsan_uaf_from_eb (stack_depot_get_extra_bits id)) ∧
    (kmsan_depth_from_eb (stack_depot_get_extra_bits
        (chainTimes chainStart 32 (MAX_CHAIN_DEPTH + 1)).1) = MAX_CHAIN_DEPTH ∧
     (kmsan_internal_chain_origin
         (chainTimes chainStart 32 (MAX_CHAIN_DEPTH + 1)).2
         (chainTimes chainStart 32 (MAX_CHAIN_DEPTH + 1)).1).1 =
       (chainTimes chainStart 32 (MAX_CHAIN_DEPTH + 1)).1) := by
  refine ⟨?_, ?_, ?_, by decide⟩
  · intro st
    unfold kmsan_internal_chain_origin
    rw [if_pos rfl]
  · intro st id h0 hd
    unfold kmsan_internal_chain_origin
    rw [if_neg h0]
    simp only []
    rw [if_pos hd]
  · intro st id h0 hd hf
    exact kmsan_internal_chain_origin_succ st id h0 hd hf


/-- Witness for claim C3: the three universally quantified parts applied
at handle 0, at the depth-7 handle 46, and at the fresh depth-0 handle 32 of
the one-record depot. -/
theorem C3_witness :
    (kmsan_internal_chain_origin stS 0).1 = 0 ∧
    (kmsan_internal_chain_origin stS 46).1 = 46 ∧
    ((kmsan_internal_chain_origin chainStart 32).1 ≠ 0 ∧
     kmsan_depth_from_eb (stack_depot_get_extra_bits
         (kmsan_internal_chain_origin chainStart 32).1) =
       kmsan_depth_from_eb (stack_depot_get_extra_bits 32) + 1 ∧
     kmsan_uaf_from_eb (stack_depot_get_extra_bits
         (kmsan_internal_chain_origin chainStart 32).1) =
       kmsan_uaf_from_eb (stack_depot_get_extra_bits 32)) :=
  ⟨C3_chain_depth.1 stS,
   C3_chain_depth.2.1 stS 46 (by decide) (by decide),
   C3_chain_depth.2.2.1 chainStart 32 (by decide) (by decide) (by decide)⟩


/-- Claim C1 counterexample: the end-to-end scenario (poison an 8-byte
granule-aligned block, unpoison offsets 2..4, scan offsets 0..7) emits NO
report events, not the two claimed: unpoisoning writes handle 0 over the
whole granule-aligned origin super-range (both granules of the block), and
the scanner never opens a run for a poisoned byte whose origin handle is 0,
as proved in claim C9. -/
theorem C1_counterexample :
    scenarioC1 = some [] ∧ scenarioC1.map List.length ≠ some 2 := by
  constructor
  · decide
  · decide


/-- Claim C4 (code bug): the edge masks in kmsan_memmove_metadata shift
the wrong way for a little-endian shadow word, contradicting the function's
own comments (the first-slot mask drops the last bytes of the slot, the
last-slot mask drops the first bytes).  Concretely, for dst = DATA,
src = DATA + 16, n = 2, with only the two source-slot bytes OUTSIDE the
copied range poisoned (page offsets 18,19, origin 77) and everything else
clean, the copy writes the nonzero chained origin 79 into the destination
granule although all four of its shadow bytes are zero after the copy,
violating invariant I2 and the claim. -/
theorem C4_wrong_mask_violates_I2 :
    c4result = some (79, 0, 0, 0, 0) ∧ (79 : Nat) ≠ 0 := by
  constructor
  · decide
  · decide


/-- Claim C5 counterexample: kmsan_free_page returns immediately (the
source says: really nothing to do here), so freeing a tracked, fully
initialized page leaves its metadata unchanged and clean; page allocations
carry no RCU-typesafe or constructor contract, yet the block is not
re-poisoned as the claim demands. -/
theorem C5_counterexample :
    kmsan_free_page stS 0 0 = stS ∧
    (kmsan_free_page stS 0 0).shadowMem SB = 0 ∧ stS.ready = true :=
  ⟨rfl, rfl, rfl⟩


/-- Claim C5 (amended): slab frees re-poison the object through the
poison primitive with the use-after-free flag unless the cache is
RCU-typesafe, uses SLAB_POISON, or has a constructor, in which cases the
metadata is left unchanged; large-allocation frees re-poison the whole
compound page; page-level frees (kmsan_free_page) leave metadata unchanged
unconditionally. -/
theorem C5_amended_free_paths :
    (∀ (st : KmsanState) (s : KmemCache) (obj : Nat),
      st.ready = true → st.inRuntime = 0 →
      s.typesafe_by_rcu = false → s.slab_poison = false →
      s.has_ctor = false →
      kmsan_slab_free st s obj =
        (kmsan_internal_poison_memory (kmsan_enter_runtime st) obj
            s.object_size GFP_KERNEL
            (KMSAN_POISON_CHECK ||| KMSAN_POISON_FREE)).map
          kmsan_leave_runtime) ∧
    (∀ (st : KmsanState) (s : KmemCache) (obj : Nat),
      s.typesafe_by_rcu = true ∨ s.slab_poison = true ∨ s.has_ctor = true →
      kmsan_slab_free st s obj = some st) ∧
    (∀ (st : KmsanState) (ptr : Nat),
      st.ready = true → st.inRuntime = 0 → ptr = st.env.headPageAddr ptr →
      kmsan_kfree_large st ptr =
        (kmsan_internal_poison_memory (kmsan_enter_runtime st) ptr
            (PAGE_SIZE * 2 ^ st.env.compoundOrder ptr) GFP_KERNEL
            (KMSAN_POISON_CHECK ||| KMSAN_POISON_FREE)).map
          kmsan_leave_runtime) ∧
    (∀ (st : KmsanState) (p o : Nat), kmsan_free_page st p o = st) := by
  refine ⟨?_, ?_, ?_, ?_⟩
  · intro st s obj hr hrt hrcu hsp hctor
    unfold kmsan_slab_free
    rw [if_neg (by simp [hr, hrt]), if_neg (by simp [hrcu, hsp]),
        if_neg (by simp [hctor])]
  · intro st s obj hflag
    unfold kmsan_slab_free
    by_cases hg : st.ready = false ∨ 0 < st.inRuntime
    · rw [if_pos hg]
    · rw [if_neg hg]
      rcases hflag with h1 | h2 | h3
      · rw [if_pos (Or.inl h1)]
      · rw [if_pos (Or.inr h2)]
      · by_cases hrp : (s.typesafe_by_rcu = true ∨ s.slab_poison = true)
        · rw [if_pos hrp]
        · rw [if_neg hrp, if_pos h3]
  · intro st ptr hr hrt hhead
    unfold kmsan_kfree_large
    rw [if_neg (by simp [hr, hrt])]
    simp only []
    rw [if_neg (by
      intro hne
      exact hne (by simpa [kmsan_enter_runtime] using hhead))]
    rfl
  · intro st p o
    rfl


/-- Witness for claim C5 (amended): the four parts applied at a plain
cache, an RCU-typesafe cache, a large allocation, and a page free. -/
theorem C5_witness :
    kmsan_slab_free stS cachePlain DATA =
      (kmsan_internal_poison_memory (kmsan_enter_runtime stS) DATA
          cachePlain.object_size GFP_KERNEL
          (KMSAN_POISON_CHECK ||| KMSAN_POISON_FREE)).map
        kmsan_leave_runtime ∧
    kmsan_slab_free stS cacheRcu DATA = some stS ∧
    kmsan_kfree_large stS DATA =
      (kmsan_internal_poison_memory (kmsan_enter_runtime stS) DATA
          (PAGE_SIZE * 2 ^ stS.env.compoundOrder DATA) GFP_KERNEL
          (KMSAN_POISON_CHECK ||| KMSAN_POISON_FREE)).map
        kmsan_leave_runtime ∧
    kmsan_free_page stS 3 1 = stS :=
  ⟨C5_amended_free_paths.1 stS cachePlain DATA rfl rfl rfl rfl rfl,
   C5_amended_free_paths.2.1 stS cacheRcu DATA (Or.inl rfl),
   C5_amended_free_paths.2.2.1 stS DATA rfl rfl (by decide),
   C5_amended_free_paths.2.2.2 stS 3 1⟩


/-- Claim C8 (confirmed): kmsan_get_shadow_origin_ptr rejects accesses
larger than one page (fatal BUG); for sizes up to one page it returns both
pointers into the dummy store page for stores and the dummy load page for
loads whenever the subsystem is not ready, the call is re-entrant, or the
resolver yields no shadow (with no origin either, per the invariant the
source itself documents: shadow and origin pages are both NULL or both
non-NULL); otherwise it returns the real shadow and origin pointers. -/
theorem C8_access_layer :
    (∀ (st : KmsanState) (a n : Nat) (b : Bool), PAGE_SIZE < n →
      kmsan_get_shadow_origin_ptr st a n b = none) ∧
    (∀ (st : KmsanState) (a n : Nat) (b : Bool), n ≤ PAGE_SIZE →
      (st.ready = false ∨ 0 < st.inRuntime) →
      kmsan_get_shadow_origin_ptr st a n b = some (dummyFor st b)) ∧
    (∀ (st : KmsanState) (a n : Nat) (b : Bool), n ≤ PAGE_SIZE →
      st.ready = true → st.inRuntime = 0 →
      kmsan_get_metadata st.env a false = none →
      kmsan_get_metadata st.env a true = none →
      kmsan_get_shadow_origin_ptr st a n b = some (dummyFor st b)) ∧
    (∀ (st : KmsanState) (a n sh0 : Nat) (b : Bool), n ≤ PAGE_SIZE →
      st.ready = true → st.inRuntime = 0 →
      kmsan_get_metadata st.env a false = some sh0 →
      kmsan_get_shadow_origin_ptr st a n b =
        some ⟨sh0, ptrVal (kmsan_get_metadata st.env a true)⟩) := by
  refine ⟨?_, ?_, ?_, ?_⟩
  · intro st a n b h
    unfold kmsan_get_shadow_origin_ptr
    rw [if_pos h]
  · intro st a n b hn hg
    unfold kmsan_get_shadow_origin_ptr
    rw [if_neg (by omega), if_pos hg]
  · intro st a n b hn hr hrt hsn hon
    unfold kmsan_get_shadow_origin_ptr
    rw [if_neg (by omega), if_neg (by simp [hr, hrt]),
        if_neg (by simp [contiguous_of_le_page st.env a n hn (fun _ => hon)]),
        hsn]
  · intro st a n sh0 b hn hr hrt hsh
    unfold kmsan_get_shadow_origin_ptr
    have hcont : kmsan_metadata_is_contiguous st.env a n = true :=
      contiguous_of_le_page st.env a n hn
        (fun hnone => by rw [hsh] at hnone; cases hnone)
    rw [if_neg (by omega), if_neg (by simp [hr, hrt]),
        if_neg (by simp [hcont]), hsh]


/-- Witness for claim C8: the four cases applied at an oversized access,
a not-ready state, an untracked source address, and the tracked page. -/
theorem C8_witness :
    kmsan_get_shadow_origin_ptr stS DATA 5000 false = none ∧
    kmsan_get_shadow_origin_ptr stNotReady DATA 8 true =
      some (dummyFor stNotReady true) ∧
    kmsan_get_shadow_origin_ptr stS SRC_UNTRACKED 8 false =
      some (dummyFor stS false) ∧
    kmsan_get_shadow_origin_ptr stS DATA 8 false =
      some ⟨SB, ptrVal (kmsan_get_metadata stS.env DATA true)⟩ :=
  ⟨C8_access_layer.1 stS DATA 5000 false (by decide),
   C8_access_layer.2.1 stNotReady DATA 8 true (by decide) (Or.inl rfl),
   C8_access_layer.2.2.1 stS SRC_UNTRACKED 8 false (by decide) rfl rfl
     (by decide) (by decide),
   C8_access_layer.2.2.2 stS DATA 8 SB false (by decide) rfl rfl (by decide)⟩


/-- Claim C6 (confirmed): when the destination resolves but the source
shadow resolves to none, kmsan_memmove_metadata zero-fills n destination
shadow bytes and leaves every origin untouched, and a subsequent check over
the destination range emits no reports: copying from untracked memory never
fabricates poison. -/
theorem C6_untracked_source (st : KmsanState) (dst src n u r sB2 : Nat)
    (hd : kmsan_get_metadata st.env dst false = some sB2)
    (hs : kmsan_get_metadata st.env src false = none)
    (hpage : dst % PAGE_SIZE + n ≤ PAGE_SIZE) :
    kmsan_memmove_metadata st dst src n =
      some { st with shadowMem := writeBytes st.shadowMem sB2 n 0 } ∧
    kmsan_internal_check_memory
        { st with shadowMem := writeBytes st.shadowMem sB2 n 0 } dst n u r =
      some [] := by
  have hcont : kmsan_metadata_is_contiguous st.env dst n = true :=
    contiguous_single_page st.env dst n hpage
  constructor
  · unfold kmsan_memmove_metadata
    rw [hd]
    simp only []
    rw [if_neg (by simp [hcont]), hs]
  · unfold kmsan_internal_check_memory
    by_cases hz : n = 0
    · rw [if_pos hz]
    · rw [if_neg hz]
      simp only []
      rw [if_neg (by simp [hcont])]
      obtain ⟨m, rfl⟩ : ∃ m, n = m + 1 := ⟨n - 1, by omega⟩
      have hchunk : min (m + 1 - 0) (PAGE_SIZE - (dst + 0) % PAGE_SIZE) =
          m + 1 := by
        unfold PAGE_SIZE at hpage ⊢
        omega
      simp only [checkGo]
      rw [if_pos (by omega : 0 < m + 1), hchunk]
      rw [show dst + 0 = dst from rfl, hd]
      simp only []
      obtain ⟨off2, hrec⟩ := checkChunkGo_noreport st.env
        (writeBytes st.shadowMem sB2 (m + 1) 0) st.originMem dst (m + 1) u r
        0 sB2 (m + 1) 0 (-1) []
        (fun j hj => Or.inl (by
          rw [Nat.zero_add, writeBytes_in st.shadowMem sB2 (m + 1) 0 (sB2 + j)
            (by omega) (by omega)]))
      rw [hrec]
      simp only [checkGo]
      rw [if_neg (by omega : ¬ (0 + (m + 1) < m + 1)),
          if_neg (fun hq => hq rfl)]


/-- Witness for claim C6: a fully poisoned destination page and an
untracked source; after the copy the checker is silent. -/
theorem C6_witness :
    kmsan_memmove_metadata stAllPoisoned DATA SRC_UNTRACKED 4 =
      some { stAllPoisoned with
        shadowMem := writeBytes stAllPoisoned.shadowMem SB 4 0 } ∧
    kmsan_internal_check_memory
        { stAllPoisoned with
          shadowMem := writeBytes stAllPoisoned.shadowMem SB 4 0 }
        DATA 4 0 0 =
      some [] :=
  C6_untracked_source stAllPoisoned DATA SRC_UNTRACKED 4 0 0 SB (by decide)
    (by decide) (by decide)

theorem kmsan_memmove_origin_step_single (stM : KmsanState)
    (src aS oSrc oDst : Nat)
    (hs4 : src % KMSAN_ORIGIN_SIZE = 0)
    (hn4 : (src + 4) % KMSAN_ORIGIN_SIZE = 0)
    (hWnz : readWord stM.shadowMem (aS + 4 * 0) ≠ 0)
    (hOnz : stM.originMem (oSrc + 4 * 0) ≠ 0)
    (hchain : (kmsan_internal_chain_origin stM
        (stM.originMem (oSrc + 4 * 0))).1 = 0) :
    kmsan_memmove_origin_step src 4 1 aS oSrc oDst 0 (0, 0, stM) =
      (stM.originMem (oSrc + 4 * 0), stM.originMem (oSrc + 4 * 0),
       { (kmsan_internal_chain_origin stM
            (stM.originMem (oSrc + 4 * 0))).2 with
         originMem := writeWord
           (kmsan_internal_chain_origin stM
              (stM.originMem (oSrc + 4 * 0))).2.originMem
           (oDst + 4 * 0) (stM.originMem (oSrc + 4 * 0)) }) := by
  have hcond : stM.originMem (oSrc + 4 * 0) ≠ 0 ∧
      stM.originMem (oSrc + 4 * 0) ≠ 0 ∧
      readWord stM.shadowMem (aS + 4 * 0) ≠ 0 := ⟨hOnz, hOnz, hWnz⟩
  unfold kmsan_memmove_origin_step
  simp only []
  simp only [hs4, hn4, Nat.zero_mul, Nat.shiftLeft_zero, Nat.shiftRight_zero,
    Nat.mod_eq_of_lt (readWord_lt stM.shadowMem (aS + 4 * 0))]
  simp only [show ((0 : Nat) = 0) = True from by simp,
    show ((0 : Nat) = 1 - 1) = True from by simp, if_true]
  rw [if_pos hcond]
  simp only []
  rw [hchain]
  rw [if_neg (show ¬ ((0 : Nat) ≠ 0) from fun hq => hq rfl)]
  rw [if_pos hWnz]


/-- Claim C10 (confirmed): in kmsan_memmove_metadata, when the source
granule has nonzero shadow and nonzero origin O but chaining fails (the
depot cannot save, so kmsan_internal_chain_origin returns 0), the
destination granule receives the unchained source origin O rather than 0:
provenance is degraded but never dropped from a still-poisoned granule. -/
theorem C10_degraded_origin (st : KmsanState) (dst src sB2 sS oB2 oS O : Nat)
    (hd4 : dst % KMSAN_ORIGIN_SIZE = 0) (hs4 : src % KMSAN_ORIGIN_SIZE = 0)
    (hpd : dst % PAGE_SIZE + 4 ≤ PAGE_SIZE)
    (hps : src % PAGE_SIZE + 4 ≤ PAGE_SIZE)
    (hsd : kmsan_get_metadata st.env dst false = some sB2)
    (hss : kmsan_get_metadata st.env src false = some sS)
    (hod : kmsan_get_metadata st.env dst true = some oB2)
    (hos : kmsan_get_metadata st.env src true = some oS)
    (hsS4 : sS % KMSAN_ORIGIN_SIZE = 0)
    (hdisj : sB2 + 4 ≤ sS ∨ sS + 4 ≤ sB2)
    (hword : readWord st.shadowMem sS ≠ 0)
    (hO : st.originMem oS = O) (hOnz : O ≠ 0)
    (hdepth : kmsan_depth_from_eb (stack_depot_get_extra_bits O) <
      MAX_CHAIN_DEPTH)
    (hpools : st.depot.pools = []) (hfull : st.depot.full = true) :
    (kmsan_internal_chain_origin
        { st with shadowMem := memmoveBytes st.shadowMem sB2 sS 4 } O).1 = 0 ∧
    ∃ st2, kmsan_memmove_metadata st dst src 4 = some st2 ∧
      st2.originMem oB2 = O := by
  have hchain0 : (kmsan_internal_chain_origin
      { st with shadowMem := memmoveBytes st.shadowMem sB2 sS 4 } O).1 = 0 :=
    kmsan_internal_chain_origin_fails _ O hOnz hdepth hpools hfull
  refine ⟨hchain0, ?_⟩
  have hcontd : kmsan_metadata_is_contiguous st.env dst 4 = true :=
    contiguous_single_page st.env dst 4 hpd
  have hconts : kmsan_metadata_is_contiguous st.env src 4 = true :=
    contiguous_single_page st.env src 4 hps
  have hss1 : (alignUp (src + 4) KMSAN_ORIGIN_SIZE -
      alignDown src KMSAN_ORIGIN_SIZE) / KMSAN_ORIGIN_SIZE = 1 := by
    unfold alignUp alignDown KMSAN_ORIGIN_SIZE at *
    omega
  have hds1 : (alignUp (dst + 4) KMSAN_ORIGIN_SIZE -
      alignDown dst KMSAN_ORIGIN_SIZE) / KMSAN_ORIGIN_SIZE = 1 := by
    unfold alignUp alignDown KMSAN_ORIGIN_SIZE at *
    omega
  have hmemS : ({ st with shadowMem := memmoveBytes st.shadowMem sB2 sS 4} :
      KmsanState).shadowMem = memmoveBytes st.shadowMem sB2 sS 4 := rfl
  have hA : ({ st with shadowMem := memmoveBytes st.shadowMem sB2 sS 4} :
      KmsanState).originMem (oS + 4 * 0) = O := by
    rw [show oS + 4 * 0 = oS from by omega]
    exact hO
  have hWnz2 : readWord ({ st with
      shadowMem := memmoveBytes st.shadowMem sB2 sS 4} :
      KmsanState).shadowMem (alignDown sS KMSAN_ORIGIN_SIZE + 4 * 0) ≠ 0 := by
    rw [hmemS, show alignDown sS KMSAN_ORIGIN_SIZE + 4 * 0 = sS from by
      unfold alignDown KMSAN_ORIGIN_SIZE at *
      omega]
    rw [readWord_congr (memmoveBytes st.shadowMem sB2 sS 4) st.shadowMem sS
      (fun k hk => memmoveBytes_out _ _ _ _ _ (by omega))]
    exact hword
  have hstep := kmsan_memmove_origin_step_single
    { st with shadowMem := memmoveBytes st.shadowMem sB2 sS 4 }
    src (alignDown sS KMSAN_ORIGIN_SIZE) oS oB2 hs4
    (by unfold KMSAN_ORIGIN_SIZE at *; omega) hWnz2
    (by rw [hA]; exact hOnz) (by rw [hA]; exact hchain0)
  unfold kmsan_memmove_metadata
  rw [hsd]
  simp only []
  rw [if_neg (by simp [hcontd]), hss]
  simp only []
  rw [if_neg (by simp [hconts])]
  try simp only []
  rw [hod, hos]
  try simp only []
  rw [hss1, hds1]
  rw [if_neg (by norm_num), if_neg (by norm_num), if_neg (by norm_num)]
  rw [Nat.min_self]
  rw [show List.range 1 = [0] from rfl]
  simp only [List.foldl_cons, List.foldl_nil]
  rw [show (if dst > src then 1 - 1 - 0 else 0) = 0 from by simp]
  rw [hstep]
  refine ⟨_, rfl, ?_⟩
  simp only []
  unfold writeWord
  rw [if_pos (show oB2 = oB2 + 4 * 0 from by omega)]
  exact hA


/-- Witness for claim C10: concrete full-depot state where chaining the
source origin 77 fails and 77 itself lands in the destination granule. -/
theorem C10_witness :
    (kmsan_internal_chain_origin
        { stC10 with shadowMem := memmoveBytes stC10.shadowMem SB (SB + 16) 4 }
        77).1 = 0 ∧
    ∃ st2, kmsan_memmove_metadata stC10 DATA (DATA + 16) 4 = some st2 ∧
      st2.originMem OB = 77 :=
  C10_degraded_origin stC10 DATA (DATA + 16) SB (SB + 16) OB (OB + 16) 77
    (by decide) (by decide) (by decide) (by decide) (by decide) (by decide)
    (by decide) (by decide) (by decide) (Or.inl (by decide)) (by decide)
    (by decide) (by decide) (by decide) rfl rfl

theorem checkGo_step_some (env : MetaEnv) (sh om : Nat → Nat)
    (addr size u r fuel pos curO : Nat) (curOff : Int)
    (acc : List KmsanReport) (sB0 : Nat) (s2 : Nat × Int × List KmsanReport)
    (hlt : pos < size)
    (hmd : kmsan_get_metadata env (addr + pos) false = some sB0)
    (hchunk : checkChunkGo env sh om addr size u r pos sB0
        (min (size - pos) (PAGE_SIZE - (addr + pos) % PAGE_SIZE)) 0
        (curO, curOff, acc) = some s2) :
    checkGo env sh om addr size u r (fuel + 1) pos (curO, curOff, acc) =
      checkGo env sh om addr size u r fuel
        (pos + min (size - pos) (PAGE_SIZE - (addr + pos) % PAGE_SIZE)) s2 := by
  simp only [checkGo]
  rw [if_pos hlt, hmd]
  simp only []
  rw [hchunk]

theorem checkGo_done (env : MetaEnv) (sh om : Nat → Nat)
    (addr size u r fuel pos curO : Nat) (curOff : Int)
    (acc : List KmsanReport) (h1 : 0 < fuel) (h2 : size ≤ pos) :
    checkGo env sh om addr size u r fuel pos (curO, curOff, acc) =
      some (if curO ≠ 0 then
        acc ++ [⟨curO, addr, size, curOff, (pos : Int) - 1, u, r⟩]
      else acc) := by
  obtain ⟨m, rfl⟩ : ∃ m, fuel = m + 1 := ⟨fuel - 1, by omega⟩
  simp only [checkGo]
  rw [if_neg (by omega)]

theorem checkChunkGo_step_new (env : MetaEnv) (sh om : Nat → Nat)
    (addr size u r pos sB0 cnt i curO : Nat) (curOff : Int)
    (acc : List KmsanReport) (op : Nat)
    (hs : ¬ sh (sB0 + i) % 256 = 0)
    (hmd : kmsan_get_metadata env (addr + pos + i) true = some op)
    (hdiff : curO ≠ om op) :
    checkChunkGo env sh om addr size u r pos sB0 (cnt + 1) i
        (curO, curOff, acc) =
      checkChunkGo env sh om addr size u r pos sB0 cnt (i + 1)
        (om op, ((pos + i : Nat) : Int),
         if curO ≠ 0 then
           acc ++ [⟨curO, addr, size, curOff, ((pos + i : Nat) : Int) - 1,
                    u, r⟩]
         else acc) := by
  simp only [checkChunkGo]
  rw [if_neg hs, hmd]
  simp only []
  rw [if_pos hdiff]

theorem check_uniform_run (st2 : KmsanState) (x u r h sB2 oB2 : Nat)
    (hpage : x % PAGE_SIZE + 8 ≤ PAGE_SIZE)
    (hcont2 : kmsan_metadata_is_contiguous st2.env x 8 = true)
    (hsh2 : kmsan_get_metadata st2.env x false = some sB2)
    (hor2 : ∀ i, i < 8 → kmsan_get_metadata st2.env (x + i) true =
      some (oB2 + 4 * ((x % KMSAN_ORIGIN_SIZE + i) / KMSAN_ORIGIN_SIZE)))
    (hshadow : ∀ i, i < 8 → st2.shadowMem (sB2 + i) % 256 ≠ 0)
    (hom : ∀ i, i < 8 → st2.originMem
      (oB2 + 4 * ((x % KMSAN_ORIGIN_SIZE + i) / KMSAN_ORIGIN_SIZE)) = h)
    (hne : h ≠ 0) :
    kmsan_internal_check_memory st2 x 8 u r =
      some [⟨h, x, 8, 0, 7, u, r⟩] := by
  have hchunk0 : min (8 - 0) (PAGE_SIZE - (x + 0) % PAGE_SIZE) = 8 := by
    unfold PAGE_SIZE at *
    omega
  have hconst := checkChunkGo_const st2.env st2.shadowMem st2.originMem x 8
    u r 0 sB2 7 1 h (((0 + 0 : Nat) : Int)) (if (0 : Nat) ≠ 0 then
      [] ++ [⟨0, x, 8, -1, ((0 + 0 : Nat) : Int) - 1, u, r⟩] else []) hne
    (fun j hj => hshadow (1 + j) (by omega))
    (fun j hj => ⟨oB2 + 4 * ((x % KMSAN_ORIGIN_SIZE + (1 + j)) /
        KMSAN_ORIGIN_SIZE),
      hor2 (1 + j) (by omega), hom (1 + j) (by omega)⟩)
  have hchunkfull : checkChunkGo st2.env st2.shadowMem st2.originMem x 8 u r
      0 sB2 8 0 (0, -1, []) =
      some (h, ((0 + 0 : Nat) : Int), if (0 : Nat) ≠ 0 then
        [] ++ [⟨0, x, 8, -1, ((0 + 0 : Nat) : Int) - 1, u, r⟩] else []) := by
    rw [checkChunkGo_step_new st2.env st2.shadowMem st2.originMem x 8 u r 0
      sB2 7 0 0 (-1) []
      (oB2 + 4 * ((x % KMSAN_ORIGIN_SIZE + 0) / KMSAN_ORIGIN_SIZE))
      (hshadow 0 (by omega)) (hor2 0 (by omega)) (by
        rw [hom 0 (by omega)]
        exact Ne.symm hne)]
    rw [hom 0 (by omega)]
    exact hconst
  unfold kmsan_internal_check_memory
  rw [if_neg (by omega : ¬ (8 : Nat) = 0)]
  rw [if_neg (by simp [hcont2])]
  rw [checkGo_step_some st2.env st2.shadowMem st2.originMem x 8 u r 8 0 0
    (-1) [] sB2 _ (by omega) (by rw [Nat.add_zero]; exact hsh2)
    (by rw [hchunk0]; exact hchunkfull)]
  rw [hchunk0]
  rw [checkGo_done st2.env st2.shadowMem st2.originMem x 8 u r 8 (0 + 8) h
    (((0 + 0 : Nat) : Int)) _ (by omega) (by omega)]
  rw [if_pos hne]
  norm_num


/-- Claim C7 (confirmed): for any tracked, metadata-backed address (the
8-byte block staying within one page, as any 8-byte allocation does),
poisoning 8 bytes and then checking them emits exactly one report covering
offsets 0..7 whose origin handle is nonzero. -/
theorem C7_round_trip (st : KmsanState) (x u r gfp sB2 oB2 : Nat)
    (hpage : x % PAGE_SIZE + 8 ≤ PAGE_SIZE)
    (hsh : kmsan_get_metadata st.env x false = some sB2)
    (hor : ∀ i, i < 8 → kmsan_get_metadata st.env (x + i) true =
      some (oB2 + 4 * ((x % KMSAN_ORIGIN_SIZE + i) / KMSAN_ORIGIN_SIZE)))
    (hfull : st.depot.full = false) :
    ∃ st2 h, kmsan_internal_poison_memory st x 8 gfp 0 = some st2 ∧ h ≠ 0 ∧
      kmsan_internal_check_memory st2 x 8 u r =
        some [⟨h, x, 8, 0, 7, u, r⟩] := by
  have hcont : kmsan_metadata_is_contiguous st.env x 8 = true :=
    contiguous_single_page st.env x 8 hpage
  have hor0 : kmsan_get_metadata st.env x true = some oB2 := by
    have h0 := hor 0 (by omega)
    rw [Nat.add_zero] at h0
    have hidx : oB2 + 4 * ((x % KMSAN_ORIGIN_SIZE + 0) / KMSAN_ORIGIN_SIZE) =
        oB2 := by
      unfold KMSAN_ORIGIN_SIZE
      omega
    rw [hidx] at h0
    exact h0
  have hpois0 : kmsan_internal_poison_memory st x 8 gfp 0 =
      kmsan_internal_set_shadow_origin
        { st with depot := (stack_depot_save_extra st.depot st.currentStack
            (kmsan_extra_bits 0 (decide (0 &&& KMSAN_POISON_FREE ≠ 0)))).2 }
        x 8 255
        (stack_depot_save_extra st.depot st.currentStack
            (kmsan_extra_bits 0 (decide (0 &&& KMSAN_POISON_FREE ≠ 0)))).1
        (decide (0 &&& KMSAN_POISON_CHECK ≠ 0)) := rfl
  have hne : (stack_depot_save_extra st.depot st.currentStack
      (kmsan_extra_bits 0 (decide (0 &&& KMSAN_POISON_FREE ≠ 0)))).1 ≠ 0 :=
    stack_depot_save_extra_ne_zero st.depot st.currentStack _ hfull
  have hspec := set_shadow_origin_spec
    { st with depot := (stack_depot_save_extra st.depot st.currentStack
        (kmsan_extra_bits 0 (decide (0 &&& KMSAN_POISON_FREE ≠ 0)))).2 }
    x 8 255
    (stack_depot_save_extra st.depot st.currentStack
        (kmsan_extra_bits 0 (decide (0 &&& KMSAN_POISON_FREE ≠ 0)))).1
    (decide (0 &&& KMSAN_POISON_CHECK ≠ 0)) sB2 oB2 hcont hsh hor0
  refine ⟨{ { st with depot := (stack_depot_save_extra st.depot
        st.currentStack
        (kmsan_extra_bits 0 (decide (0 &&& KMSAN_POISON_FREE ≠ 0)))).2 } with
      shadowMem := writeBytes st.shadowMem sB2 8 255
      originMem := writeOriginSlots st.originMem oB2
        (alignUp (8 + x % KMSAN_ORIGIN_SIZE) KMSAN_ORIGIN_SIZE /
          KMSAN_ORIGIN_SIZE)
        (stack_depot_save_extra st.depot st.currentStack
          (kmsan_extra_bits 0 (decide (0 &&& KMSAN_POISON_FREE ≠ 0)))).1 },
    (stack_depot_save_extra st.depot st.currentStack
      (kmsan_extra_bits 0 (decide (0 &&& KMSAN_POISON_FREE ≠ 0)))).1,
    ?_, hne, ?_⟩
  · rw [hpois0]
    exact hspec
  · refine check_uniform_run _ x u r _ sB2 oB2 hpage hcont hsh hor ?_ ?_ hne
    · intro i hi
      show writeBytes st.shadowMem sB2 8 255 (sB2 + i) % 256 ≠ 0
      rw [writeBytes_in st.shadowMem sB2 8 255 (sB2 + i) (by omega)
        (by omega)]
      norm_num
    · intro i hi
      show writeOriginSlots st.originMem oB2
        (alignUp (8 + x % KMSAN_ORIGIN_SIZE) KMSAN_ORIGIN_SIZE /
          KMSAN_ORIGIN_SIZE)
        (stack_depot_save_extra st.depot st.currentStack
          (kmsan_extra_bits 0 (decide (0 &&& KMSAN_POISON_FREE ≠ 0)))).1
        (oB2 + 4 * ((x % KMSAN_ORIGIN_SIZE + i) / KMSAN_ORIGIN_SIZE)) = _
      exact writeOriginSlots_in st.originMem oB2 _ _
        ((x % KMSAN_ORIGIN_SIZE + i) / KMSAN_ORIGIN_SIZE)
        (by unfold alignUp KMSAN_ORIGIN_SIZE
            omega)


/-- Witness for claim C7 at the concrete baseline state and the tracked
page base. -/
theorem C7_witness :
    ∃ st2 h, kmsan_internal_poison_memory stS DATA 8 0 0 = some st2 ∧
      h ≠ 0 ∧ kmsan_internal_check_memory st2 DATA 8 0 0 =
        some [⟨h, DATA, 8, 0, 7, 0, 0⟩] :=
  C7_round_trip stS DATA 0 0 0 SB OB (by decide) (by decide) (by decide) rfl


/-- Claim C1 (amended): for a granule-aligned tracked 8-byte block, the
scenario poison, unpoison offsets 2..4, then check offsets 0..7 emits no
reports: the unpoison call zeroes the origin handles of every granule it
touches, and the scanner skips poisoned bytes with zero origin.  (Shadow
bytes 0,1,5,6,7 do remain poisoned; only the reports are lost.) -/
theorem C1_amended_scenario (st : KmsanState) (x u r gfp sB2 oB2 : Nat)
    (hx4 : x % KMSAN_ORIGIN_SIZE = 0)
    (hpage : x % PAGE_SIZE + 8 ≤ PAGE_SIZE)
    (hsh : ∀ i, i < 8 → kmsan_get_metadata st.env (x + i) false =
      some (sB2 + i))
    (hor : ∀ i, i < 8 → kmsan_get_metadata st.env (x + i) true =
      some (oB2 + 4 * (i / KMSAN_ORIGIN_SIZE)))
    (hfull : st.depot.full = false) :
    ∃ st2 st3,
      kmsan_internal_poison_memory st x 8 gfp 0 = some st2 ∧
      kmsan_internal_unpoison_memory st2 (x + 2) 3 false = some st3 ∧
      kmsan_internal_check_memory st3 x 8 u r = some [] := by
  have hno : ¬ ((0 : Nat) ≠ 0) := fun hq => hq rfl
  have hcont8 : kmsan_metadata_is_contiguous st.env x 8 = true :=
    contiguous_single_page st.env x 8 hpage
  have hsh0 : kmsan_get_metadata st.env x false = some sB2 := by
    have h0 := hsh 0 (by omega)
    rw [Nat.add_zero, Nat.add_zero] at h0
    exact h0
  have hor0 : kmsan_get_metadata st.env x true = some oB2 := by
    have h0 := hor 0 (by omega)
    rw [Nat.add_zero] at h0
    have hidx : oB2 + 4 * (0 / KMSAN_ORIGIN_SIZE) = oB2 := by
      unfold KMSAN_ORIGIN_SIZE
      omega
    rw [hidx] at h0
    exact h0
  have hpois0 : kmsan_internal_poison_memory st x 8 gfp 0 =
      kmsan_internal_set_shadow_origin
        { st with depot := (stack_depot_save_extra st.depot st.currentStack
            (kmsan_extra_bits 0 (decide (0 &&& KMSAN_POISON_FREE ≠ 0)))).2 }
        x 8 255
        (stack_depot_save_extra st.depot st.currentStack
            (kmsan_extra_bits 0 (decide (0 &&& KMSAN_POISON_FREE ≠ 0)))).1
        (decide (0 &&& KMSAN_POISON_CHECK ≠ 0)) := rfl
  have hspec1 := set_shadow_origin_spec
    { st with depot := (stack_depot_save_extra st.depot st.currentStack
        (kmsan_extra_bits 0 (decide (0 &&& KMSAN_POISON_FREE ≠ 0)))).2 }
    x 8 255
    (stack_depot_save_extra st.depot st.currentStack
        (kmsan_extra_bits 0 (decide (0 &&& KMSAN_POISON_FREE ≠ 0)))).1
    (decide (0 &&& KMSAN_POISON_CHECK ≠ 0)) sB2 oB2 hcont8 hsh0 hor0
  have hcont3 : kmsan_metadata_is_contiguous st.env (x + 2) 3 = true := by
    apply contiguous_single_page
    unfold PAGE_SIZE at *
    omega
  have hsh2 : kmsan_get_metadata st.env (x + 2) false = some (sB2 + 2) :=
    hsh 2 (by omega)
  have hor2 : kmsan_get_metadata st.env (x + 2) true = some oB2 := by
    have h2 := hor 2 (by omega)
    have hidx : oB2 + 4 * (2 / KMSAN_ORIGIN_SIZE) = oB2 := by
      unfold KMSAN_ORIGIN_SIZE
      omega
    rw [hidx] at h2
    exact h2
  refine ⟨{ { st with depot := (stack_depot_save_extra st.depot
        st.currentStack
        (kmsan_extra_bits 0 (decide (0 &&& KMSAN_POISON_FREE ≠ 0)))).2 } with
      shadowMem := writeBytes st.shadowMem sB2 8 255
      originMem := writeOriginSlots st.originMem oB2
        (alignUp (8 + x % KMSAN_ORIGIN_SIZE) KMSAN_ORIGIN_SIZE /
          KMSAN_ORIGIN_SIZE)
        (stack_depot_save_extra st.depot st.currentStack
          (kmsan_extra_bits 0 (decide (0 &&& KMSAN_POISON_FREE ≠ 0)))).1 },
    { { st with depot := (stack_depot_save_extra st.depot
        st.currentStack
        (kmsan_extra_bits 0 (decide (0 &&& KMSAN_POISON_FREE ≠ 0)))).2 } with
      shadowMem := writeBytes (writeBytes st.shadowMem sB2 8 255) (sB2 + 2) 3 0
      originMem := writeOriginSlots
        (writeOriginSlots st.originMem oB2
          (alignUp (8 + x % KMSAN_ORIGIN_SIZE) KMSAN_ORIGIN_SIZE /
            KMSAN_ORIGIN_SIZE)
          (stack_depot_save_extra st.depot st.currentStack
            (kmsan_extra_bits 0 (decide (0 &&& KMSAN_POISON_FREE ≠ 0)))).1)
        oB2
        (alignUp (3 + (x + 2) % KMSAN_ORIGIN_SIZE) KMSAN_ORIGIN_SIZE /
          KMSAN_ORIGIN_SIZE) 0 },
    ?_, ?_, ?_⟩
  · rw [hpois0]
    exact hspec1
  · exact set_shadow_origin_spec _ (x + 2) 3 0 0 false (sB2 + 2) oB2
      hcont3 hsh2 hor2
  · have hfact : ∀ j, j < 8 →
        (writeBytes (writeBytes st.shadowMem sB2 8 255) (sB2 + 2) 3 0)
          (sB2 + (0 + j)) % 256 = 0 ∨
        (∃ p, kmsan_get_metadata st.env (x + 0 + (0 + j)) true = some p ∧
          (writeOriginSlots
            (writeOriginSlots st.originMem oB2
              (alignUp (8 + x % KMSAN_ORIGIN_SIZE) KMSAN_ORIGIN_SIZE /
                KMSAN_ORIGIN_SIZE)
              (stack_depot_save_extra st.depot st.currentStack
                (kmsan_extra_bits 0
                  (decide (0 &&& KMSAN_POISON_FREE ≠ 0)))).1)
            oB2
            (alignUp (3 + (x + 2) % KMSAN_ORIGIN_SIZE) KMSAN_ORIGIN_SIZE /
              KMSAN_ORIGIN_SIZE) 0) p = 0) := by
      intro j hj
      right
      refine ⟨oB2 + 4 * (j / KMSAN_ORIGIN_SIZE),
        by rw [show x + 0 + (0 + j) = x + j by omega]; exact hor j hj, ?_⟩
      exact writeOriginSlots_in _ oB2 _ 0 (j / KMSAN_ORIGIN_SIZE)
        (by unfold alignUp KMSAN_ORIGIN_SIZE at *
            omega)
    obtain ⟨off2, hnr⟩ := checkChunkGo_noreport st.env
      (writeBytes (writeBytes st.shadowMem sB2 8 255) (sB2 + 2) 3 0)
      (writeOriginSlots
        (writeOriginSlots st.originMem oB2
          (alignUp (8 + x % KMSAN_ORIGIN_SIZE) KMSAN_ORIGIN_SIZE /
            KMSAN_ORIGIN_SIZE)
          (stack_depot_save_extra st.depot st.currentStack
            (kmsan_extra_bits 0 (decide (0 &&& KMSAN_POISON_FREE ≠ 0)))).1)
        oB2
        (alignUp (3 + (x + 2) % KMSAN_ORIGIN_SIZE) KMSAN_ORIGIN_SIZE /
          KMSAN_ORIGIN_SIZE) 0)
      x 8 u r 0 sB2 8 0 (-1) [] hfact
    have hchunk0 : min (8 - 0) (PAGE_SIZE - (x + 0) % PAGE_SIZE) = 8 := by
      unfold PAGE_SIZE at *
      omega
    unfold kmsan_internal_check_memory
    rw [if_neg (by omega : ¬ (8 : Nat) = 0)]
    rw [if_neg (by simp [hcont8])]
    rw [checkGo_step_some st.env _ _ x 8 u r 8 0 0 (-1) [] sB2 _
      (by omega) (by rw [Nat.add_zero]; exact hsh0)
      (by rw [hchunk0]; exact hnr)]
    rw [hchunk0]
    rw [checkGo_done st.env _ _ x 8 u r 8 (0 + 8) 0 off2 [] (by omega)
      (by omega)]
    rw [if_neg hno]


/-- Witness for claim C1 (amended) at the concrete baseline state and the
tracked page base address. -/
theorem C1_witness :
    ∃ st2 st3,
      kmsan_internal_poison_memory stS DATA 8 0 0 = some st2 ∧
      kmsan_internal_unpoison_memory st2 (DATA + 2) 3 false = some st3 ∧
      kmsan_internal_check_memory st3 DATA 8 0 0 = some [] :=
  C1_amended_scenario stS DATA 0 0 0 SB OB (by decide) (by decide)
    (by decide) (by decide) rfl
